import Mathlib

set_option maxRecDepth 4000

/-!
Shallow embedding of the Privacy-Assistant core pipeline
(`packages/shared/src`): the scoring engine (`scoring/privacyScore.ts`),
the risk detector (`risks/detectRisks.ts`), the confidence assessor
(`confidence/deriveConfidence.ts`) and the recommendation generator
(`recommendations/generateRecommendations.ts`).

JavaScript numbers are modelled by `JsNum`: an exact rational for finite
values, plus `nan` and the two infinities, with IEEE-style comparison
semantics (every comparison involving `nan` is false) and JS addition on
the non-finite values. Finite arithmetic is exact rational arithmetic;
`Number.EPSILON` is the exact rational `2⁻⁵²`, and `Math.round` is
`⌊x + 1/2⌋` (round half toward positive infinity), as in JS.
-/

namespace PrivacyAssistant

/-- Model of a JavaScript `number`: a finite rational, `NaN`, or `±Infinity`. -/
inductive JsNum where
  | num (q : ℚ)
  | nan
  | posInf
  | negInf
deriving DecidableEq, Repr

/-- JS addition on the model: `NaN` absorbs, `Infinity + -Infinity = NaN`. -/
def JsNum.add : JsNum → JsNum → JsNum
  | .nan, _ => .nan
  | _, .nan => .nan
  | .posInf, .negInf => .nan
  | .negInf, .posInf => .nan
  | .posInf, _ => .posInf
  | _, .posInf => .posInf
  | .negInf, _ => .negInf
  | _, .negInf => .negInf
  | .num a, .num b => .num (a + b)

instance : Add JsNum := ⟨JsNum.add⟩

/-- JS `<=` comparison: false whenever an operand is `NaN`. -/
def JsNum.jle : JsNum → JsNum → Bool
  | .nan, _ => false
  | _, .nan => false
  | .negInf, _ => true
  | _, .posInf => true
  | .posInf, _ => false
  | _, .negInf => false
  | .num a, .num b => decide (a ≤ b)

/-- JS `<` comparison: false whenever an operand is `NaN`. -/
def JsNum.jlt : JsNum → JsNum → Bool
  | .nan, _ => false
  | _, .nan => false
  | .posInf, _ => false
  | _, .posInf => true
  | _, .negInf => false
  | .negInf, _ => true
  | .num a, .num b => decide (a < b)

/-- JS `>=` comparison. -/
def JsNum.jge (a b : JsNum) : Bool := JsNum.jle b a

/-- JS `>` comparison. -/
def JsNum.jgt (a b : JsNum) : Bool := JsNum.jlt b a

/-- JS `Number.isFinite`. -/
def JsNum.isFinite : JsNum → Bool
  | .num _ => true
  | _ => false

/-- JS `Number.EPSILON` as an exact rational. -/
def jsEpsilon : ℚ := 1 / 2 ^ 52

/-- JS `Math.round` on a finite value: round half toward positive infinity. -/
def mathRound (q : ℚ) : ℤ := ⌊q + 1 / 2⌋

/-! ### `scoring/privacyScore.ts` -/

/-- `ScoreFactorId` from `privacyScore.ts`. -/
inductive ScoreFactorId where
  | third_party_scripts
  | third_party_cookies
  | storage_usage
  | tracking_indicators
  | network_suspiciousness
deriving DecidableEq, Repr

/-- `ConfidenceLevel` from `privacyScore.ts`. -/
inductive ConfidenceLevel where
  | low
  | medium
  | high
deriving DecidableEq, Repr

/-- `sourceFlags` of `NormalizedAnalysisInput`. -/
structure SourceFlags where
  contentReachable : Bool
  contentSignalsAvailable : Bool
  cookieSignalsAvailable : Bool
  networkSignalsAvailable : Bool
deriving DecidableEq, Repr

/-- `scriptSignals` of `NormalizedAnalysisInput`. -/
structure ScriptSignals where
  thirdPartyScriptDomainCount : JsNum
  externalScriptCount : JsNum
deriving DecidableEq, Repr

/-- `cookieSignals` of `NormalizedAnalysisInput`. -/
structure CookieSignals where
  thirdPartyCookieEstimateCount : JsNum
  totalCookieCount : JsNum
deriving DecidableEq, Repr

/-- One storage area (`localStorage` / `sessionStorage`). -/
structure StorageArea where
  approxBytes : JsNum
  keyCount : JsNum
deriving DecidableEq, Repr

/-- `storageSignals` of `NormalizedAnalysisInput`. -/
structure StorageSignals where
  localStorage : StorageArea
  sessionStorage : StorageArea
deriving DecidableEq, Repr

/-- `trackingHeuristics` of `NormalizedAnalysisInput`. -/
structure TrackingHeuristics where
  trackerDomainHitCount : JsNum
  endpointPatternHitCount : JsNum
  trackingQueryParamCount : JsNum
deriving DecidableEq, Repr

/-- `networkSignals` of `NormalizedAnalysisInput`; `unavailableReason?: string | null`
is modelled as `Option String` (absent and `null` collapse to `none`). -/
structure NetworkSignals where
  available : Bool
  unavailableReason : Option String
  thirdPartyRequestCount : JsNum
  suspiciousEndpointHitCount : JsNum
  knownTrackerDomainHitCount : JsNum
  shortWindowBurstCount : JsNum
deriving DecidableEq, Repr

/-- `NormalizedAnalysisInput` from `privacyScore.ts`. -/
structure NormalizedAnalysisInput where
  sourceFlags : SourceFlags
  scriptSignals : ScriptSignals
  cookieSignals : CookieSignals
  storageSignals : StorageSignals
  trackingHeuristics : TrackingHeuristics
  networkSignals : NetworkSignals
  confidence : ConfidenceLevel
deriving DecidableEq, Repr

/-- `ScoreFactorDefinition` from `privacyScore.ts` (`sourcePath`, `unit` and
`rationale` are documentation strings; we keep `label`, `weight`, `hardCap`). -/
structure ScoreFactorDefinition where
  id : ScoreFactorId
  label : String
  weight : ℚ
  hardCap : ℚ
deriving DecidableEq, Repr

/-- `SCORE_FACTOR_DEFINITIONS`: the canonical ordered factor list. -/
def SCORE_FACTOR_DEFINITIONS : List ScoreFactorDefinition :=
  [ { id := .third_party_scripts, label := "Third-party script domains",
      weight := 20, hardCap := 20 },
    { id := .third_party_cookies, label := "Third-party cookies",
      weight := 20, hardCap := 40 },
    { id := .storage_usage, label := "Client storage footprint",
      weight := 15, hardCap := 4000000 },
    { id := .tracking_indicators, label := "Tracking heuristics",
      weight := 25, hardCap := 30 },
    { id := .network_suspiciousness, label := "Suspicious network activity",
      weight := 20, hardCap := 80 } ]

/-- `SCORE_FACTOR_IDS_IN_ORDER`. -/
def SCORE_FACTOR_IDS_IN_ORDER : List ScoreFactorId :=
  SCORE_FACTOR_DEFINITIONS.map (·.id)

/-- Index of a factor in `SCORE_FACTOR_IDS_IN_ORDER` (JS `indexOf`). -/
def factorIndex (id : ScoreFactorId) : ℕ :=
  SCORE_FACTOR_IDS_IN_ORDER.indexOf id

/-- `PRIVACY_SCORE_BOUNDS.min` / `.max` and `BASE_PRIVACY_SCORE`. -/
def PRIVACY_SCORE_MIN : ℚ := 0
def PRIVACY_SCORE_MAX : ℚ := 100
def BASE_PRIVACY_SCORE : ℚ := 100
def MAX_REASON_COUNT : ℕ := 3

/-- `toFiniteNonNegative`: non-finite or `<= 0` becomes `0`. -/
def toFiniteNonNegative (value : JsNum) : ℚ :=
  match value with
  | .num q => if q ≤ 0 then 0 else q
  | _ => 0

/-- `roundStableHalfUp2dp`: `Math.round((x + Number.EPSILON) * 100) / 100`.
All call sites in the source pass finite values (the `Number.isFinite`
guard takes its `safe = value` branch), so the model takes a rational. -/
def roundStableHalfUp2dp (value : ℚ) : ℚ :=
  (mathRound ((value + jsEpsilon) * 100) : ℚ) / 100

/-- `clampPrivacyScore` on a finite value. -/
def clampPrivacyScore (value : ℚ) : ℚ :=
  if value < PRIVACY_SCORE_MIN then PRIVACY_SCORE_MIN
  else if value > PRIVACY_SCORE_MAX then PRIVACY_SCORE_MAX
  else value

/-- `computeRawFactorValue` from `privacyScore.ts`. -/
def computeRawFactorValue (factorId : ScoreFactorId) (input : NormalizedAnalysisInput) : ℚ :=
  match factorId with
  | .third_party_scripts =>
      toFiniteNonNegative input.scriptSignals.thirdPartyScriptDomainCount
  | .third_party_cookies =>
      toFiniteNonNegative input.cookieSignals.thirdPartyCookieEstimateCount
  | .storage_usage =>
      toFiniteNonNegative
        (input.storageSignals.localStorage.approxBytes +
          input.storageSignals.sessionStorage.approxBytes)
  | .tracking_indicators =>
      toFiniteNonNegative
        (input.trackingHeuristics.trackerDomainHitCount +
          input.trackingHeuristics.endpointPatternHitCount +
          input.trackingHeuristics.trackingQueryParamCount)
  | .network_suspiciousness =>
      if !input.networkSignals.available then 0
      else
        toFiniteNonNegative
          (input.networkSignals.thirdPartyRequestCount +
            input.networkSignals.suspiciousEndpointHitCount +
            input.networkSignals.knownTrackerDomainHitCount +
            input.networkSignals.shortWindowBurstCount)

/-- `ScoreFactorContribution` from `privacyScore.ts`. -/
structure ScoreFactorContribution where
  factorId : ScoreFactorId
  label : String
  rawValue : ℚ
  cappedValue : ℚ
  hardCap : ℚ
  weight : ℚ
  penalty : ℚ
deriving DecidableEq, Repr

/-- `ScoreReason` from `privacyScore.ts`. -/
structure ScoreReason where
  factorId : ScoreFactorId
  label : String
  penalty : ℚ
  reason : String
deriving DecidableEq, Repr

/-- `PrivacyScoreComputation` from `privacyScore.ts` (the constant
`roundingStrategy` tag is omitted from the model record). -/
structure PrivacyScoreComputation where
  baseScore : ℚ
  totalPenalty : ℚ
  score : ℚ
  contributions : List ScoreFactorContribution
  strongestNegativeReasons : List ScoreReason
deriving DecidableEq, Repr

/-- `buildReasonText` from `privacyScore.ts`. -/
def buildReasonText (contribution : ScoreFactorContribution) : String :=
  if contribution.factorId = .storage_usage then
    contribution.label ++ " consumed " ++ toString (mathRound contribution.rawValue) ++ " bytes"
  else
    contribution.label ++ " triggered " ++ toString (mathRound contribution.rawValue) ++ " signals"

/-- `compareContributions` as an ordering relation: `a` may precede `b` iff the
JS comparator returns `<= 0` on `(a, b)` — larger penalty first, ties broken by
canonical factor order. -/
def contribOrder (a b : ScoreFactorContribution) : Prop :=
  b.penalty < a.penalty ∨
    (a.penalty = b.penalty ∧ factorIndex a.factorId ≤ factorIndex b.factorId)

instance : DecidableRel contribOrder := fun a b => by
  unfold contribOrder; infer_instance

instance : IsTotal ScoreFactorContribution contribOrder :=
  ⟨fun a b => by
    rcases lt_trichotomy a.penalty b.penalty with h | h | h
    · exact Or.inr (Or.inl h)
    · rcases Nat.le_total (factorIndex a.factorId) (factorIndex b.factorId) with h' | h'
      · exact Or.inl (Or.inr ⟨h, h'⟩)
      · exact Or.inr (Or.inr ⟨h.symm, h'⟩)
    · exact Or.inl (Or.inl h)⟩

instance : IsTrans ScoreFactorContribution contribOrder :=
  ⟨fun a b c hab hbc => by
    rcases hab with h1 | ⟨h1, h1'⟩ <;> rcases hbc with h2 | ⟨h2, h2'⟩
    · exact Or.inl (h2.trans h1)
    · exact Or.inl (h2 ▸ h1)
    · exact Or.inl (h1 ▸ h2)
    · exact Or.inr ⟨h1.trans h2, h1'.trans h2'⟩⟩

/-- The body of the `map` in `computePrivacyScore`: one factor's contribution. -/
def factorContribution (input : NormalizedAnalysisInput) (factor : ScoreFactorDefinition) :
    ScoreFactorContribution :=
  let rawValue := computeRawFactorValue factor.id input
  let cappedValue := min rawValue factor.hardCap
  let normalizedPenaltyRatio := if factor.hardCap > 0 then cappedValue / factor.hardCap else 0
  let penalty := roundStableHalfUp2dp (factor.weight * normalizedPenaltyRatio)
  { factorId := factor.id
    label := factor.label
    rawValue := roundStableHalfUp2dp rawValue
    cappedValue := roundStableHalfUp2dp cappedValue
    hardCap := factor.hardCap
    weight := factor.weight
    penalty := penalty }

/-- `computePrivacyScore` from `privacyScore.ts`. The JS `Array.prototype.sort`
call is modelled by `List.insertionSort contribOrder`: the comparator is a
total order that is antisymmetric on the (distinct) factors, so any
correct sort produces this unique ordering. -/
def computePrivacyScore (input : NormalizedAnalysisInput) : PrivacyScoreComputation :=
  let contributions := SCORE_FACTOR_DEFINITIONS.map (factorContribution input)
  let totalPenalty := roundStableHalfUp2dp
    (contributions.foldl (fun sum contribution => sum + contribution.penalty) 0)
  let unclampedScore := roundStableHalfUp2dp (BASE_PRIVACY_SCORE - totalPenalty)
  let score := roundStableHalfUp2dp (clampPrivacyScore unclampedScore)
  let strongestNegativeReasons :=
    (((contributions.filter (fun contribution => 0 < contribution.penalty)).insertionSort
        contribOrder).take MAX_REASON_COUNT).map
      (fun contribution =>
        { factorId := contribution.factorId
          label := contribution.label
          penalty := contribution.penalty
          reason := buildReasonText contribution })
  { baseScore := BASE_PRIVACY_SCORE
    totalPenalty := totalPenalty
    score := score
    contributions := contributions
    strongestNegativeReasons := strongestNegativeReasons }

/-! ### `risks/detectRisks.ts` -/

/-- `OverallRiskLevel`. -/
inductive OverallRiskLevel where
  | low
  | medium
  | high
deriving DecidableEq, Repr

/-- `RiskSeverity`. -/
inductive RiskSeverity where
  | low
  | medium
  | high
deriving DecidableEq, Repr

/-- `MitigationPriority`. -/
inductive MitigationPriority where
  | p1
  | p2
  | p3
deriving DecidableEq, Repr

/-- `RiskMetricOperator`. -/
inductive RiskMetricOperator where
  | ge
  | gt
  | le
  | lt
deriving DecidableEq, Repr

/-- `RiskRuleSource`. -/
inductive RiskRuleSource where
  | overall_score
  | cookies
  | scripts
  | storage
  | tracking
  | network
deriving DecidableEq, Repr

/-- `RiskItem` from `detectRisks.ts`. -/
structure RiskItem where
  id : String
  title : String
  explanation : String
  severity : RiskSeverity
  mitigationPriority : MitigationPriority
  source : RiskRuleSource
  metric : String
  operator : RiskMetricOperator
  threshold : ℚ
  actualValue : JsNum
deriving DecidableEq, Repr

/-- `RiskDetectionInput`. -/
structure RiskDetectionInput where
  score : JsNum
  normalized : NormalizedAnalysisInput
deriving DecidableEq, Repr

/-- `RiskDetectionOutput` (the constant `rulesetVersion` tag is omitted). -/
structure RiskDetectionOutput where
  overallRisk : OverallRiskLevel
  overallExplanation : String
  mappingFallbackUsed : Bool
  networkFallbackUsed : Bool
  networkUnavailableReason : Option String
  riskItems : List RiskItem
deriving DecidableEq, Repr

/-- `ScoreBand` from `detectRisks.ts`. -/
structure ScoreBand where
  level : OverallRiskLevel
  minInclusive : ℚ
  maxInclusive : ℚ
  explanation : String
deriving DecidableEq, Repr

/-- `RiskRule` from `detectRisks.ts`. -/
structure RiskRule where
  id : String
  title : String
  severity : RiskSeverity
  mitigationPriority : MitigationPriority
  source : RiskRuleSource
  metric : String
  operator : RiskMetricOperator
  threshold : ℚ
  explanation : String
  getActualValue : RiskDetectionInput → JsNum

/-- `OVERALL_RISK_FALLBACK`. -/
def OVERALL_RISK_FALLBACK : ScoreBand :=
  { level := .medium, minInclusive := 0, maxInclusive := 100,
    explanation :=
      "Overall privacy risk could not be determined reliably due to a risk mapping configuration issue." }

/-- `OVERALL_SCORE_BANDS`. -/
def OVERALL_SCORE_BANDS : List ScoreBand :=
  [ { level := .high, minInclusive := 0, maxInclusive := 3999 / 100,
      explanation := "High privacy risk due to strong tracking and third-party activity signals." },
    { level := .medium, minInclusive := 40, maxInclusive := 6999 / 100,
      explanation := "Medium privacy risk with notable tracking-related behaviors detected." },
    { level := .low, minInclusive := 70, maxInclusive := 100,
      explanation := "Lower privacy risk compared to common web tracking patterns." } ]

/-- `RISK_RULES`: the fixed ordered rule list. -/
def RISK_RULES : List RiskRule :=
  [ { id := "overall_score_high", title := "Overall privacy score is low",
      severity := .high, mitigationPriority := .p1, source := .overall_score,
      metric := "score", operator := .lt, threshold := 40,
      explanation := "The total score indicates multiple significant privacy risk factors.",
      getActualValue := fun input => input.score },
    { id := "third_party_cookie_volume", title := "High third-party cookie volume",
      severity := .high, mitigationPriority := .p1, source := .cookies,
      metric := "cookieSignals.thirdPartyCookieEstimateCount", operator := .ge, threshold := 25,
      explanation := "A large number of third-party cookies can enable cross-site tracking.",
      getActualValue := fun input => input.normalized.cookieSignals.thirdPartyCookieEstimateCount },
    { id := "third_party_script_domains", title := "Many third-party script domains",
      severity := .medium, mitigationPriority := .p2, source := .scripts,
      metric := "scriptSignals.thirdPartyScriptDomainCount", operator := .ge, threshold := 10,
      explanation := "Numerous external script domains increase exposure to data-sharing and tracking.",
      getActualValue := fun input => input.normalized.scriptSignals.thirdPartyScriptDomainCount },
    { id := "persistent_storage_footprint", title := "Large persistent storage footprint",
      severity := .medium, mitigationPriority := .p2, source := .storage,
      metric := "storageSignals.totalApproxBytes", operator := .ge, threshold := 2000000,
      explanation := "Large local/session storage may indicate persistent identifiers for tracking.",
      getActualValue := fun input =>
        input.normalized.storageSignals.localStorage.approxBytes +
          input.normalized.storageSignals.sessionStorage.approxBytes },
    { id := "tracking_indicator_density", title := "Dense tracking indicators",
      severity := .high, mitigationPriority := .p1, source := .tracking,
      metric := "trackingHeuristics.totalIndicators", operator := .ge, threshold := 12,
      explanation := "Multiple tracker and endpoint patterns suggest active telemetry collection.",
      getActualValue := fun input =>
        input.normalized.trackingHeuristics.trackerDomainHitCount +
          input.normalized.trackingHeuristics.endpointPatternHitCount +
          input.normalized.trackingHeuristics.trackingQueryParamCount },
    { id := "network_heavy_third_party_requests", title := "Heavy third-party request volume",
      severity := .medium, mitigationPriority := .p2, source := .network,
      metric := "networkSignals.thirdPartyRequestCount", operator := .ge, threshold := 40,
      explanation := "Frequent third-party network requests increase passive data leakage risk.",
      getActualValue := fun input =>
        if input.normalized.networkSignals.available then
          input.normalized.networkSignals.thirdPartyRequestCount
        else .num 0 },
    { id := "network_suspicious_endpoint_repetition", title := "Repeated suspicious tracking endpoints",
      severity := .high, mitigationPriority := .p1, source := .network,
      metric := "networkSignals.suspiciousEndpointHitCount", operator := .ge, threshold := 15,
      explanation := "Repeated calls to tracking-like endpoints suggest active behavior analytics.",
      getActualValue := fun input =>
        if input.normalized.networkSignals.available then
          input.normalized.networkSignals.suspiciousEndpointHitCount
        else .num 0 },
    { id := "network_tracker_domain_concentration", title := "Concentrated known tracker-domain activity",
      severity := .high, mitigationPriority := .p1, source := .network,
      metric := "networkSignals.knownTrackerDomainHitCount", operator := .ge, threshold := 8,
      explanation := "High known-tracker domain frequency indicates sustained profiling behavior.",
      getActualValue := fun input =>
        if input.normalized.networkSignals.available then
          input.normalized.networkSignals.knownTrackerDomainHitCount
        else .num 0 },
    { id := "network_short_window_burst", title := "Suspicious short-window traffic burst",
      severity := .medium, mitigationPriority := .p2, source := .network,
      metric := "networkSignals.shortWindowBurstCount", operator := .ge, threshold := 25,
      explanation := "Burst-like request behavior may indicate beaconing or batch telemetry uploads.",
      getActualValue := fun input =>
        if input.normalized.networkSignals.available then
          input.normalized.networkSignals.shortWindowBurstCount
        else .num 0 } ]

/-- `clampToScoreRange`: non-finite scores clamp to `0`. -/
def clampToScoreRange (value : JsNum) : ℚ :=
  match value with
  | .num q => if q < 0 then 0 else if q > 100 then 100 else q
  | _ => 0

/-- `compareThreshold` with JS comparison semantics on the actual value. -/
def compareThreshold (actualValue : JsNum) (operator : RiskMetricOperator) (threshold : ℚ) : Bool :=
  match operator with
  | .ge => actualValue.jge (.num threshold)
  | .gt => actualValue.jgt (.num threshold)
  | .le => actualValue.jle (.num threshold)
  | .lt => actualValue.jlt (.num threshold)

/-- `resolveOverallRisk`. -/
def resolveOverallRisk (score : JsNum) : ScoreBand × Bool :=
  let safeScore := clampToScoreRange score
  match OVERALL_SCORE_BANDS.find?
      (fun band => decide (band.minInclusive ≤ safeScore ∧ safeScore ≤ band.maxInclusive)) with
  | some matchedBand => (matchedBand, false)
  | none => (OVERALL_RISK_FALLBACK, true)

/-- JS truthiness of the optional `unavailableReason` string (`""` is falsy). -/
def reasonTruthy : Option String → Bool
  | some s => s ≠ ""
  | none => false

/-- `createNetworkUnavailableRisk`. -/
def createNetworkUnavailableRisk (input : RiskDetectionInput) : RiskItem :=
  { id := "network_signals_unavailable"
    title := "Network signal analysis unavailable"
    explanation :=
      match input.normalized.networkSignals.unavailableReason with
      | some reason =>
          if reason ≠ "" then
            "Network-based risk checks were skipped: " ++ reason ++ "."
          else "Network-based risk checks were skipped because network signals are unavailable."
      | none => "Network-based risk checks were skipped because network signals are unavailable."
    severity := .low
    mitigationPriority := .p3
    source := .network
    metric := "networkSignals.available"
    operator := .lt
    threshold := 1
    actualValue := .num 0 }

/-- The body of the `flatMap` in `detectRisks`: evaluate one rule, skipping
network-sourced rules when network signals are unavailable. -/
def evalRiskRule (input : RiskDetectionInput) (rule : RiskRule) : List RiskItem :=
  if rule.source = .network ∧ input.normalized.networkSignals.available = false then []
  else
    let actualValue := rule.getActualValue input
    if compareThreshold actualValue rule.operator rule.threshold then
      [ { id := rule.id, title := rule.title, explanation := rule.explanation,
          severity := rule.severity, mitigationPriority := rule.mitigationPriority,
          source := rule.source, metric := rule.metric, operator := rule.operator,
          threshold := rule.threshold, actualValue := actualValue } ]
    else []

/-- `detectRisks` from `detectRisks.ts`. -/
def detectRisks (input : RiskDetectionInput) : RiskDetectionOutput :=
  let overall := resolveOverallRisk input.score
  let networkSignalsAvailable := input.normalized.networkSignals.available
  let firedItems := RISK_RULES.flatMap (evalRiskRule input)
  let riskItems :=
    if networkSignalsAvailable then firedItems
    else firedItems ++ [createNetworkUnavailableRisk input]
  { overallRisk := overall.1.level
    overallExplanation := overall.1.explanation
    mappingFallbackUsed := overall.2
    networkFallbackUsed := !networkSignalsAvailable
    networkUnavailableReason :=
      if networkSignalsAvailable then none
      else input.normalized.networkSignals.unavailableReason
    riskItems := riskItems }

/-! ### `confidence/deriveConfidence.ts` -/

/-- `ConfidenceReasonCode`. -/
inductive ConfidenceReasonCode where
  | CONTENT_UNREACHABLE
  | CONTENT_SIGNALS_UNAVAILABLE
  | COOKIE_SIGNALS_UNAVAILABLE
  | NETWORK_SIGNALS_UNAVAILABLE
deriving DecidableEq, Repr

/-- `ConfidenceReason`. -/
structure ConfidenceReason where
  code : ConfidenceReasonCode
  message : String
deriving DecidableEq, Repr

/-- `ConfidenceAssessment` (the constant `rulesetVersion` tag is omitted). -/
structure ConfidenceAssessment where
  score : ℚ
  level : ConfidenceLevel
  reasons : List ConfidenceReason
deriving DecidableEq, Repr

def MAX_CONFIDENCE_SCORE : ℚ := 100
def MIN_CONFIDENCE_SCORE : ℚ := 0

/-- `ConfidencePenaltyRule`. -/
structure ConfidencePenaltyRule where
  code : ConfidenceReasonCode
  penalty : ℚ
  message : NormalizedAnalysisInput → String
  shouldApply : NormalizedAnalysisInput → Bool

/-- `CONFIDENCE_PENALTY_RULES`: the fixed ordered penalty-rule list. -/
def CONFIDENCE_PENALTY_RULES : List ConfidencePenaltyRule :=
  [ { code := .CONTENT_UNREACHABLE, penalty := 20,
      message := fun _ => "Content context was unreachable; page-level signals may be incomplete.",
      shouldApply := fun input => !input.sourceFlags.contentReachable },
    { code := .CONTENT_SIGNALS_UNAVAILABLE, penalty := 35,
      message := fun _ => "Content signal collectors were unavailable for this analysis.",
      shouldApply := fun input => !input.sourceFlags.contentSignalsAvailable },
    { code := .COOKIE_SIGNALS_UNAVAILABLE, penalty := 20,
      message := fun _ => "Cookie signal collector data is unavailable, reducing confidence.",
      shouldApply := fun input => !input.sourceFlags.cookieSignalsAvailable },
    { code := .NETWORK_SIGNALS_UNAVAILABLE, penalty := 25,
      message := fun input =>
        match input.networkSignals.unavailableReason with
        | some reason =>
            if reason ≠ "" then "Network signal collector unavailable: " ++ reason ++ "."
            else
              "Network signal collector is unavailable, reducing confidence in traffic-related results."
        | none =>
            "Network signal collector is unavailable, reducing confidence in traffic-related results.",
      shouldApply := fun input => !input.sourceFlags.networkSignalsAvailable } ]

/-- `clampConfidenceScore` (finite argument at its only call site). -/
def clampConfidenceScore (value : ℚ) : ℚ :=
  if value < MIN_CONFIDENCE_SCORE then MIN_CONFIDENCE_SCORE
  else if value > MAX_CONFIDENCE_SCORE then MAX_CONFIDENCE_SCORE
  else value

/-- `mapConfidenceLevel`. -/
def mapConfidenceLevel (score : ℚ) : ConfidenceLevel :=
  if score ≥ 80 then .high
  else if score ≥ 50 then .medium
  else .low

/-- `deriveConfidence` from `deriveConfidence.ts`: fold the penalty rules in
order, subtracting each applicable penalty and recording its reason. -/
def deriveConfidence (input : NormalizedAnalysisInput) : ConfidenceAssessment :=
  let state := CONFIDENCE_PENALTY_RULES.foldl
    (fun (state : ℚ × List ConfidenceReason) rule =>
      if rule.shouldApply input then
        (state.1 - rule.penalty, state.2 ++ [{ code := rule.code, message := rule.message input }])
      else state)
    (MAX_CONFIDENCE_SCORE, [])
  let boundedScore := clampConfidenceScore state.1
  { score := boundedScore
    level := mapConfidenceLevel boundedScore
    reasons := state.2 }

/-! ### `recommendations/generateRecommendations.ts` -/

/-- `RecommendationActionId`. -/
inductive RecommendationActionId where
  | reduce_third_party_cookies
  | limit_third_party_scripts
  | clear_site_storage_data
  | block_known_trackers
  | review_tracking_permissions
  | harden_network_privacy
deriving DecidableEq, Repr

/-- The literal string of an action id (used for lexicographic tie-breaks). -/
def actionIdString : RecommendationActionId → String
  | .reduce_third_party_cookies => "reduce_third_party_cookies"
  | .limit_third_party_scripts => "limit_third_party_scripts"
  | .clear_site_storage_data => "clear_site_storage_data"
  | .block_known_trackers => "block_known_trackers"
  | .review_tracking_permissions => "review_tracking_permissions"
  | .harden_network_privacy => "harden_network_privacy"

/-- `RecommendationCatalogItem`. -/
structure RecommendationCatalogItem where
  actionId : RecommendationActionId
  title : String
  rationale : String
  defaultPriority : MitigationPriority
deriving DecidableEq, Repr

/-- `Recommendation`. -/
structure Recommendation where
  actionId : RecommendationActionId
  title : String
  rationale : String
  severity : RiskSeverity
  priority : MitigationPriority
  triggeredByRiskIds : List String
deriving DecidableEq, Repr

/-- `RecommendationOutput` (the constant `rulesetVersion` tag is omitted). -/
structure RecommendationOutput where
  recommendations : List Recommendation
deriving DecidableEq, Repr

/-- `RECOMMENDATION_CATALOG` as a total lookup on the six action ids. -/
def RECOMMENDATION_CATALOG : RecommendationActionId → RecommendationCatalogItem
  | .reduce_third_party_cookies =>
      { actionId := .reduce_third_party_cookies, title := "Reduce third-party cookies",
        rationale := "Reducing third-party cookies lowers cross-site tracking across browsing sessions.",
        defaultPriority := .p1 }
  | .limit_third_party_scripts =>
      { actionId := .limit_third_party_scripts, title := "Limit third-party scripts",
        rationale := "Limiting third-party script execution lowers data-sharing and fingerprinting exposure.",
        defaultPriority := .p2 }
  | .clear_site_storage_data =>
      { actionId := .clear_site_storage_data, title := "Clear site storage data",
        rationale := "Removing persistent storage can invalidate long-lived tracking identifiers.",
        defaultPriority := .p2 }
  | .block_known_trackers =>
      { actionId := .block_known_trackers, title := "Block known tracker domains",
        rationale := "Blocking known trackers reduces profiling and telemetry collection.",
        defaultPriority := .p1 }
  | .review_tracking_permissions =>
      { actionId := .review_tracking_permissions, title := "Review tracking-related permissions",
        rationale := "Restricting site permissions can reduce silent data access and background tracking.",
        defaultPriority := .p2 }
  | .harden_network_privacy =>
      { actionId := .harden_network_privacy, title := "Harden network privacy settings",
        rationale := "Network privacy controls can reduce beaconing, endpoint telemetry, and request leakage.",
        defaultPriority := .p1 }

/-- `RISK_TO_RECOMMENDATION_MAP` with the JS `?? []` default for unknown ids. -/
def riskToRecommendationMap (riskId : String) : List RecommendationActionId :=
  if riskId = "overall_score_high" then
    [.block_known_trackers, .reduce_third_party_cookies, .harden_network_privacy]
  else if riskId = "third_party_cookie_volume" then
    [.reduce_third_party_cookies]
  else if riskId = "third_party_script_domains" then
    [.limit_third_party_scripts, .review_tracking_permissions]
  else if riskId = "persistent_storage_footprint" then
    [.clear_site_storage_data]
  else if riskId = "tracking_indicator_density" then
    [.block_known_trackers, .harden_network_privacy]
  else if riskId = "network_heavy_third_party_requests" then
    [.harden_network_privacy, .block_known_trackers]
  else if riskId = "network_suspicious_endpoint_repetition" then
    [.harden_network_privacy, .block_known_trackers]
  else if riskId = "network_tracker_domain_concentration" then
    [.block_known_trackers, .harden_network_privacy]
  else if riskId = "network_short_window_burst" then
    [.harden_network_privacy]
  else []

/-- `RISK_SEVERITY_ORDER`: smaller rank is more severe. -/
def severityRank : RiskSeverity → ℕ
  | .high => 0
  | .medium => 1
  | .low => 2

/-- `PRIORITY_ORDER`: smaller rank is more urgent. -/
def priorityRank : MitigationPriority → ℕ
  | .p1 => 0
  | .p2 => 1
  | .p3 => 2

/-- `chooseHigherSeverity`. -/
def chooseHigherSeverity (a b : RiskSeverity) : RiskSeverity :=
  if severityRank a ≤ severityRank b then a else b

/-- `chooseHigherPriority`. -/
def chooseHigherPriority (a b : MitigationPriority) : MitigationPriority :=
  if priorityRank a ≤ priorityRank b then a else b

/-- JS `Set.add` on an insertion-ordered list of strings. -/
def addUniqueString (l : List String) (x : String) : List String :=
  if x ∈ l then l else l ++ [x]

/-- `RecommendationAccumulator`; `triggeredByRiskIds` is a JS `Set`,
modelled as an insertion-ordered duplicate-free list. -/
structure RecommendationAccumulator where
  actionId : RecommendationActionId
  severity : RiskSeverity
  priority : MitigationPriority
  triggeredByRiskIds : List String
deriving DecidableEq, Repr

/-- The merge performed on an existing accumulator entry (the mutation branch
of the loop body in `applyRiskToAccumulator`). -/
def mergeAcc (acc : RecommendationAccumulator) (risk : RiskItem) : RecommendationAccumulator :=
  { acc with
    severity := chooseHigherSeverity acc.severity risk.severity
    priority := chooseHigherPriority acc.priority risk.mitigationPriority
    triggeredByRiskIds := addUniqueString acc.triggeredByRiskIds risk.id }

/-- The accumulator created for a first-time action id (the `Map.set` branch
of the loop body in `applyRiskToAccumulator`). -/
def freshAcc (risk : RiskItem) (actionId : RecommendationActionId) : RecommendationAccumulator :=
  { actionId := actionId, severity := risk.severity,
    priority := risk.mitigationPriority, triggeredByRiskIds := [risk.id] }

/-- The loop body of `applyRiskToAccumulator`: process one mapped action id. -/
def applyRiskAction (risk : RiskItem) (accumulators : List RecommendationAccumulator)
    (actionId : RecommendationActionId) : List RecommendationAccumulator :=
  if accumulators.any (fun acc => acc.actionId = actionId) then
    accumulators.map (fun acc => if acc.actionId = actionId then mergeAcc acc risk else acc)
  else accumulators ++ [freshAcc risk actionId]

/-- `applyRiskToAccumulator`: the JS `Map` keyed by action id is modelled as an
insertion-ordered association list (JS `Map` preserves insertion order,
`map.set` on an existing key updates in place, and `Array.from(map.values())`
iterates in insertion order). -/
def applyRiskToAccumulator (accumulators : List RecommendationAccumulator) (risk : RiskItem) :
    List RecommendationAccumulator :=
  (riskToRecommendationMap risk.id).foldl (applyRiskAction risk) accumulators

/-- `sortRiskIdsStable`: `localeCompare` is modelled as the codepoint order on
strings (they agree on the ASCII identifiers this pipeline produces). -/
def sortRiskIdsStable (riskIds : List String) : List String :=
  riskIds.insertionSort (· ≤ ·)

/-- `compareRecommendations` as an ordering relation: `a` may precede `b` iff
the JS comparator returns `<= 0` on `(a, b)`. -/
def recOrder (a b : Recommendation) : Prop :=
  severityRank a.severity < severityRank b.severity ∨
    (severityRank a.severity = severityRank b.severity ∧
      (priorityRank a.priority < priorityRank b.priority ∨
        (priorityRank a.priority = priorityRank b.priority ∧
          actionIdString a.actionId ≤ actionIdString b.actionId)))

instance : DecidableRel recOrder := fun a b => by
  unfold recOrder; infer_instance

instance : IsTotal Recommendation recOrder :=
  ⟨fun a b => by
    rcases Nat.lt_trichotomy (severityRank a.severity) (severityRank b.severity) with h | h | h
    · exact Or.inl (Or.inl h)
    · rcases Nat.lt_trichotomy (priorityRank a.priority) (priorityRank b.priority) with h' | h' | h'
      · exact Or.inl (Or.inr ⟨h, Or.inl h'⟩)
      · rcases le_total (actionIdString a.actionId) (actionIdString b.actionId) with h'' | h''
        · exact Or.inl (Or.inr ⟨h, Or.inr ⟨h', h''⟩⟩)
        · exact Or.inr (Or.inr ⟨h.symm, Or.inr ⟨h'.symm, h''⟩⟩)
      · exact Or.inr (Or.inr ⟨h.symm, Or.inl h'⟩)
    · exact Or.inr (Or.inl h)⟩

instance : IsTrans Recommendation recOrder :=
  ⟨fun a b c hab hbc => by
    rcases hab with h1 | ⟨h1, h1'⟩ <;> rcases hbc with h2 | ⟨h2, h2'⟩
    · exact Or.inl (h1.trans h2)
    · exact Or.inl (h2 ▸ h1)
    · exact Or.inl (h1 ▸ h2)
    · refine Or.inr ⟨h1.trans h2, ?_⟩
      rcases h1' with h3 | ⟨h3, h3'⟩ <;> rcases h2' with h4 | ⟨h4, h4'⟩
      · exact Or.inl (h3.trans h4)
      · exact Or.inl (h4 ▸ h3)
      · exact Or.inl (h3 ▸ h4)
      · exact Or.inr ⟨h3.trans h4, h3'.trans h4'⟩⟩

/-- The body of the `map` in `generateRecommendations`: emit one
recommendation from an accumulator. -/
def finalizeAccumulator (accumulator : RecommendationAccumulator) : Recommendation :=
  let catalog := RECOMMENDATION_CATALOG accumulator.actionId
  { actionId := accumulator.actionId
    title := catalog.title
    rationale := catalog.rationale
    severity := accumulator.severity
    priority := chooseHigherPriority catalog.defaultPriority accumulator.priority
    triggeredByRiskIds := sortRiskIdsStable accumulator.triggeredByRiskIds }

/-- `generateRecommendations` from `generateRecommendations.ts`. The JS
`Array.prototype.sort` call is modelled by `List.insertionSort recOrder`:
the comparator is total and antisymmetric on the (deduplicated) action ids,
so any correct sort produces this unique ordering. -/
def generateRecommendations (input : RiskDetectionOutput) : RecommendationOutput :=
  let accumulators := input.riskItems.foldl applyRiskToAccumulator []
  let recommendations := (accumulators.map finalizeAccumulator).insertionSort recOrder
  { recommendations := recommendations }

end PrivacyAssistant

namespace PrivacyAssistant

/-- A concrete all-zero input, used by witnesses. -/
def zeroInput : NormalizedAnalysisInput :=
  { sourceFlags :=
      { contentReachable := true, contentSignalsAvailable := true,
        cookieSignalsAvailable := true, networkSignalsAvailable := true }
    scriptSignals := { thirdPartyScriptDomainCount := .num 0, externalScriptCount := .num 0 }
    cookieSignals := { thirdPartyCookieEstimateCount := .num 0, totalCookieCount := .num 0 }
    storageSignals :=
      { localStorage := { approxBytes := .num 0, keyCount := .num 0 }
        sessionStorage := { approxBytes := .num 0, keyCount := .num 0 } }
    trackingHeuristics :=
      { trackerDomainHitCount := .num 0, endpointPatternHitCount := .num 0,
        trackingQueryParamCount := .num 0 }
    networkSignals :=
      { available := true, unavailableReason := none,
        thirdPartyRequestCount := .num 0, suspiciousEndpointHitCount := .num 0,
        knownTrackerDomainHitCount := .num 0, shortWindowBurstCount := .num 0 }
    confidence := .high }

/-- `zeroInput` with only the network source flag lowered. -/
def networkDownInput : NormalizedAnalysisInput :=
  { zeroInput with
    sourceFlags :=
      { contentReachable := true, contentSignalsAvailable := true,
        cookieSignalsAvailable := true, networkSignalsAvailable := false } }

/-- C4: `deriveConfidence` starts from 100, subtracts the flat penalties
20/35/20/25 for the four lowered source flags (each at most once), clamps into
`[0,100]`, lists the reasons in the fixed rule order, and maps the level as
`high` iff score ≥ 80, `medium` iff 50 ≤ score < 80, else `low`; with all four
flags raised it returns 100 / `high` / no reasons, and with only
`networkSignalsAvailable = false` it returns 75 / `medium` /
`[NETWORK_SIGNALS_UNAVAILABLE]`. -/
theorem deriveConfidence_spec (input : NormalizedAnalysisInput) :
    (deriveConfidence input).score =
      clampConfidenceScore (100 -
        ((if input.sourceFlags.contentReachable then 0 else 20) +
          (if input.sourceFlags.contentSignalsAvailable then 0 else 35) +
          (if input.sourceFlags.cookieSignalsAvailable then 0 else 20) +
          (if input.sourceFlags.networkSignalsAvailable then 0 else 25))) ∧
    (deriveConfidence input).reasons.map (·.code) =
      ((if input.sourceFlags.contentReachable then [] else [.CONTENT_UNREACHABLE]) ++
        (if input.sourceFlags.contentSignalsAvailable then [] else [.CONTENT_SIGNALS_UNAVAILABLE]) ++
        (if input.sourceFlags.cookieSignalsAvailable then [] else [.COOKIE_SIGNALS_UNAVAILABLE]) ++
        (if input.sourceFlags.networkSignalsAvailable then [] else [.NETWORK_SIGNALS_UNAVAILABLE])) ∧
    ((deriveConfidence input).level = .high ↔ 80 ≤ (deriveConfidence input).score) ∧
    ((deriveConfidence input).level = .medium ↔
      50 ≤ (deriveConfidence input).score ∧ (deriveConfidence input).score < 80) ∧
    ((deriveConfidence input).level = .low ↔ (deriveConfidence input).score < 50) ∧
    (input.sourceFlags = ⟨true, true, true, true⟩ →
      (deriveConfidence input).score = 100 ∧ (deriveConfidence input).level = .high ∧
        (deriveConfidence input).reasons = []) ∧
    (input.sourceFlags = ⟨true, true, true, false⟩ →
      (deriveConfidence input).score = 75 ∧ (deriveConfidence input).level = .medium ∧
        (deriveConfidence input).reasons.map (·.code) = [.NETWORK_SIGNALS_UNAVAILABLE]) := by
  obtain ⟨⟨cr, cs, ck, nw⟩, sc, co, st, tr, ne, cf⟩ := input
  cases cr <;> cases cs <;> cases ck <;> cases nw <;>
    simp only [deriveConfidence, CONFIDENCE_PENALTY_RULES, clampConfidenceScore,
      mapConfidenceLevel, List.foldl, List.map, Bool.not_true, Bool.not_false, if_true, if_false,
      Bool.false_eq_true, ite_true, ite_false, List.nil_append, List.append_nil,
      List.cons_append, SourceFlags.mk.injEq, and_true, and_false, true_and, false_and] <;>
    norm_num [MAX_CONFIDENCE_SCORE, MIN_CONFIDENCE_SCORE] <;> exact ⟨by decide, by decide⟩

/-- Witness for C4 at the two concrete fixture inputs. -/
theorem deriveConfidence_spec_witness :
    ((deriveConfidence zeroInput).score = 100 ∧ (deriveConfidence zeroInput).level = .high ∧
      (deriveConfidence zeroInput).reasons = []) ∧
    ((deriveConfidence networkDownInput).score = 75 ∧
      (deriveConfidence networkDownInput).level = .medium ∧
      (deriveConfidence networkDownInput).reasons.map (·.code) =
        [.NETWORK_SIGNALS_UNAVAILABLE]) :=
  ⟨(deriveConfidence_spec zeroInput).2.2.2.2.2.1 rfl,
    (deriveConfidence_spec networkDownInput).2.2.2.2.2.2 rfl⟩

lemma detectRisks_overallRisk (input : RiskDetectionInput) :
    (detectRisks input).overallRisk = (resolveOverallRisk input.score).1.level := rfl

lemma detectRisks_mappingFallbackUsed (input : RiskDetectionInput) :
    (detectRisks input).mappingFallbackUsed = (resolveOverallRisk input.score).2 := rfl

lemma resolveOverallRisk_high {s : JsNum} (h0 : 0 ≤ clampToScoreRange s)
    (h1 : clampToScoreRange s ≤ 3999 / 100) :
    resolveOverallRisk s = (OVERALL_SCORE_BANDS[0], false) := by
  simp only [resolveOverallRisk, OVERALL_SCORE_BANDS, List.find?]
  simp [h0, h1]

lemma resolveOverallRisk_medium {s : JsNum} (h0 : 40 ≤ clampToScoreRange s)
    (h1 : clampToScoreRange s ≤ 6999 / 100) :
    resolveOverallRisk s = (OVERALL_SCORE_BANDS[1], false) := by
  have hn : ¬clampToScoreRange s ≤ 3999 / 100 := by
    intro hle
    have : (3999 : ℚ) / 100 < 40 := by norm_num
    linarith
  simp only [resolveOverallRisk, OVERALL_SCORE_BANDS, List.find?]
  simp [hn, h0, h1]

lemma resolveOverallRisk_low {s : JsNum} (h0 : 70 ≤ clampToScoreRange s)
    (h1 : clampToScoreRange s ≤ 100) :
    resolveOverallRisk s = (OVERALL_SCORE_BANDS[2], false) := by
  have hn1 : ¬clampToScoreRange s ≤ 3999 / 100 := by
    intro hle
    have : (3999 : ℚ) / 100 < 70 := by norm_num
    linarith
  have hn2 : ¬clampToScoreRange s ≤ 6999 / 100 := by
    intro hle
    have : (6999 : ℚ) / 100 < 70 := by norm_num
    linarith
  simp only [resolveOverallRisk, OVERALL_SCORE_BANDS, List.find?]
  simp [hn1, hn2, h0, h1]

/-- C2: `detectRisks` clamps the incoming score into `[0,100]` and maps it with
the three closed bands high = `[0, 39.99]`, medium = `[40, 69.99]`,
low = `[70, 100]`; in particular score 70 maps to `low`, 69.99 to `medium`,
40 to `medium`, and 39.99 to `high`, for every normalized input. -/
theorem detectRisks_band_spec (s : JsNum) (n : NormalizedAnalysisInput) :
    (0 ≤ clampToScoreRange s ∧ clampToScoreRange s ≤ 3999 / 100 →
      (detectRisks { score := s, normalized := n }).overallRisk = .high) ∧
    (40 ≤ clampToScoreRange s ∧ clampToScoreRange s ≤ 6999 / 100 →
      (detectRisks { score := s, normalized := n }).overallRisk = .medium) ∧
    (70 ≤ clampToScoreRange s ∧ clampToScoreRange s ≤ 100 →
      (detectRisks { score := s, normalized := n }).overallRisk = .low) ∧
    (detectRisks { score := .num 70, normalized := n }).overallRisk = .low ∧
    (detectRisks { score := .num (6999 / 100), normalized := n }).overallRisk = .medium ∧
    (detectRisks { score := .num 40, normalized := n }).overallRisk = .medium ∧
    (detectRisks { score := .num (3999 / 100), normalized := n }).overallRisk = .high := by
  refine ⟨?_, ?_, ?_, ?_, ?_, ?_, ?_⟩
  · intro h
    rw [detectRisks_overallRisk, resolveOverallRisk_high h.1 h.2]
    rfl
  · intro h
    rw [detectRisks_overallRisk, resolveOverallRisk_medium h.1 h.2]
    rfl
  · intro h
    rw [detectRisks_overallRisk, resolveOverallRisk_low h.1 h.2]
    rfl
  · have h : clampToScoreRange (.num 70) = 70 := by norm_num [clampToScoreRange]
    rw [detectRisks_overallRisk, resolveOverallRisk_low (by rw [h]) (by rw [h]; norm_num)]
    rfl
  · have h : clampToScoreRange (.num (6999 / 100)) = 6999 / 100 := by
      norm_num [clampToScoreRange]
    rw [detectRisks_overallRisk, resolveOverallRisk_medium (by rw [h]; norm_num) (by rw [h])]
    rfl
  · have h : clampToScoreRange (.num 40) = 40 := by norm_num [clampToScoreRange]
    rw [detectRisks_overallRisk, resolveOverallRisk_medium (by rw [h]) (by rw [h]; norm_num)]
    rfl
  · have h : clampToScoreRange (.num (3999 / 100)) = 3999 / 100 := by
      norm_num [clampToScoreRange]
    rw [detectRisks_overallRisk, resolveOverallRisk_high (by rw [h]; norm_num) (by rw [h])]
    rfl

lemma detectRisks_riskItems_eq (input : RiskDetectionInput) :
    (detectRisks input).riskItems =
      RISK_RULES.flatMap (evalRiskRule input) ++
        (if input.normalized.networkSignals.available then []
          else [createNetworkUnavailableRisk input]) := by
  cases h : input.normalized.networkSignals.available <;> simp [detectRisks, h]

lemma evalRiskRule_mem {input : RiskDetectionInput} {rule : RiskRule} {item : RiskItem}
    (h : item ∈ evalRiskRule input rule) :
    item.id = rule.id ∧ item.severity = rule.severity ∧
      item.mitigationPriority = rule.mitigationPriority ∧ item.source = rule.source := by
  unfold evalRiskRule at h
  split at h
  · simp at h
  · dsimp only at h
    split at h
    · simp only [List.mem_singleton] at h
      subst h
      exact ⟨rfl, rfl, rfl, rfl⟩
    · simp at h

lemma evalRiskRule_network_skipped {input : RiskDetectionInput} {rule : RiskRule}
    (hs : rule.source = .network)
    (hn : input.normalized.networkSignals.available = false) :
    evalRiskRule input rule = [] := by
  unfold evalRiskRule
  rw [if_pos ⟨hs, hn⟩]

/-- Witness for C2: concrete scores land in the claimed bands. -/
theorem detectRisks_band_spec_witness :
    (detectRisks { score := .num 20, normalized := zeroInput }).overallRisk = .high ∧
    (detectRisks { score := .num 55, normalized := zeroInput }).overallRisk = .medium ∧
    (detectRisks { score := .num 85, normalized := zeroInput }).overallRisk = .low :=
  ⟨(detectRisks_band_spec (.num 20) zeroInput).1
      ⟨by norm_num [clampToScoreRange], by norm_num [clampToScoreRange]⟩,
    (detectRisks_band_spec (.num 55) zeroInput).2.1
      ⟨by norm_num [clampToScoreRange], by norm_num [clampToScoreRange]⟩,
    (detectRisks_band_spec (.num 85) zeroInput).2.2.1
      ⟨by norm_num [clampToScoreRange], by norm_num [clampToScoreRange]⟩⟩

end PrivacyAssistant

namespace PrivacyAssistant

/-- `zeroInput` with network signals unavailable (with a reason), used by witnesses. -/
def networkUnavailableInput : NormalizedAnalysisInput :=
  { zeroInput with
    networkSignals :=
      { available := false, unavailableReason := some "permission denied",
        thirdPartyRequestCount := .num 50, suspiciousEndpointHitCount := .num 50,
        knownTrackerDomainHitCount := .num 50, shortWindowBurstCount := .num 50 } }

/-- `zeroInput` with 30 estimated third-party cookies, used by witnesses. -/
def cookieHeavyInput : NormalizedAnalysisInput :=
  { zeroInput with
    cookieSignals := { thirdPartyCookieEstimateCount := .num 30, totalCookieCount := .num 30 } }

/-- The risk item fired by `third_party_cookie_volume` on `cookieHeavyInput`. -/
def cookieVolumeItem : RiskItem :=
  { id := "third_party_cookie_volume", title := "High third-party cookie volume",
    explanation := "A large number of third-party cookies can enable cross-site tracking.",
    severity := .high, mitigationPriority := .p1, source := .cookies,
    metric := "cookieSignals.thirdPartyCookieEstimateCount", operator := .ge,
    threshold := 25, actualValue := .num 30 }

/-- C3: with `networkSignals.available = false`, none of the four
network-sourced rules fires, exactly one synthetic
`network_signals_unavailable` item (severity `low`, priority `p3`) is present,
as the last element, `networkFallbackUsed` is `true`, and the unavailable
reason is surfaced. -/
theorem detectRisks_network_gating (input : RiskDetectionInput)
    (h : input.normalized.networkSignals.available = false) :
    (∀ item ∈ (detectRisks input).riskItems,
      item.id ≠ "network_heavy_third_party_requests" ∧
        item.id ≠ "network_suspicious_endpoint_repetition" ∧
        item.id ≠ "network_tracker_domain_concentration" ∧
        item.id ≠ "network_short_window_burst") ∧
    (detectRisks input).riskItems.countP
      (fun item => item.id == "network_signals_unavailable") = 1 ∧
    (detectRisks input).riskItems.getLast? = some (createNetworkUnavailableRisk input) ∧
    (createNetworkUnavailableRisk input).severity = .low ∧
    (createNetworkUnavailableRisk input).mitigationPriority = .p3 ∧
    (detectRisks input).networkFallbackUsed = true ∧
    (detectRisks input).networkUnavailableReason =
      input.normalized.networkSignals.unavailableReason := by
  have hitems := detectRisks_riskItems_eq input
  rw [h] at hitems
  simp only [Bool.false_eq_true, if_false] at hitems
  have hflat : ∀ item ∈ RISK_RULES.flatMap (evalRiskRule input),
      item.id = "overall_score_high" ∨ item.id = "third_party_cookie_volume" ∨
        item.id = "third_party_script_domains" ∨ item.id = "persistent_storage_footprint" ∨
        item.id = "tracking_indicator_density" := by
    intro item hmem
    obtain ⟨rule, hrule, hitem⟩ := List.mem_flatMap.mp hmem
    have hid := (evalRiskRule_mem hitem).1
    simp only [RISK_RULES, List.mem_cons, List.not_mem_nil, or_false] at hrule
    rcases hrule with rfl | rfl | rfl | rfl | rfl | rfl | rfl | rfl | rfl
    · exact Or.inl hid
    · exact Or.inr (Or.inl hid)
    · exact Or.inr (Or.inr (Or.inl hid))
    · exact Or.inr (Or.inr (Or.inr (Or.inl hid)))
    · exact Or.inr (Or.inr (Or.inr (Or.inr hid)))
    all_goals rw [evalRiskRule_network_skipped rfl h] at hitem
    all_goals simp at hitem
  refine ⟨?_, ?_, ?_, rfl, rfl, ?_, ?_⟩
  · intro item hmem
    rw [hitems] at hmem
    rcases List.mem_append.mp hmem with hmem | hmem
    · rcases hflat item hmem with hid | hid | hid | hid | hid <;> rw [hid] <;>
        exact ⟨by decide, by decide, by decide, by decide⟩
    · simp only [List.mem_singleton] at hmem
      rw [hmem]
      have hid : (createNetworkUnavailableRisk input).id = "network_signals_unavailable" := rfl
      rw [hid]
      exact ⟨by decide, by decide, by decide, by decide⟩
  · rw [hitems, List.countP_append]
    have h0 : (RISK_RULES.flatMap (evalRiskRule input)).countP
        (fun item => item.id == "network_signals_unavailable") = 0 := by
      rw [List.countP_eq_zero]
      intro item hmem
      rcases hflat item hmem with hid | hid | hid | hid | hid <;> rw [hid] <;> decide
    rw [h0]
    rfl
  · rw [hitems, List.getLast?_concat]
  · simp [detectRisks, h]
  · simp [detectRisks, h]

/-- Witness for C3 at a concrete network-unavailable input. -/
theorem detectRisks_network_gating_witness :
    ((createNetworkUnavailableRisk { score := .num 100, normalized := networkUnavailableInput }).id ≠
        "network_heavy_third_party_requests" ∧
      (createNetworkUnavailableRisk { score := .num 100, normalized := networkUnavailableInput }).id ≠
        "network_suspicious_endpoint_repetition" ∧
      (createNetworkUnavailableRisk { score := .num 100, normalized := networkUnavailableInput }).id ≠
        "network_tracker_domain_concentration" ∧
      (createNetworkUnavailableRisk { score := .num 100, normalized := networkUnavailableInput }).id ≠
        "network_short_window_burst") ∧
    (detectRisks { score := .num 100, normalized := networkUnavailableInput }).riskItems.countP
      (fun item => item.id == "network_signals_unavailable") = 1 ∧
    (detectRisks { score := .num 100, normalized := networkUnavailableInput }).networkFallbackUsed =
      true := by
  have h := detectRisks_network_gating { score := .num 100, normalized := networkUnavailableInput }
    rfl
  refine ⟨h.1 _ ?_, h.2.1, h.2.2.2.2.2.1⟩
  with_unfolding_all decide

/-- C10: on a `NaN` score, the band lookup clamps to `0`, so `detectRisks`
reports `overallRisk = high` with `mappingFallbackUsed = false`, yet the
`overall_score_high` rule (which compares the raw score) does not fire, so no
risk item with that id appears. -/
theorem detectRisks_nan_score (n : NormalizedAnalysisInput) :
    (detectRisks { score := .nan, normalized := n }).overallRisk = .high ∧
    (detectRisks { score := .nan, normalized := n }).mappingFallbackUsed = false ∧
    ∀ item ∈ (detectRisks { score := .nan, normalized := n }).riskItems,
      item.id ≠ "overall_score_high" := by
  have hclamp : clampToScoreRange JsNum.nan = 0 := rfl
  have hband : resolveOverallRisk JsNum.nan = (OVERALL_SCORE_BANDS[0], false) :=
    resolveOverallRisk_high (by rw [hclamp]) (by rw [hclamp]; norm_num)
  refine ⟨?_, ?_, ?_⟩
  · rw [detectRisks_overallRisk, hband]
    rfl
  · rw [detectRisks_mappingFallbackUsed, hband]
  · intro item hmem
    rw [detectRisks_riskItems_eq] at hmem
    rcases List.mem_append.mp hmem with hmem | hmem
    · obtain ⟨rule, hrule, hitem⟩ := List.mem_flatMap.mp hmem
      have hid := (evalRiskRule_mem hitem).1
      simp only [RISK_RULES, List.mem_cons, List.not_mem_nil, or_false] at hrule
      rcases hrule with rfl | rfl | rfl | rfl | rfl | rfl | rfl | rfl | rfl
      · exfalso
        unfold evalRiskRule at hitem
        simp [compareThreshold, JsNum.jgt, JsNum.jlt] at hitem
      all_goals rw [hid]
      all_goals decide
    · split at hmem <;> simp only [List.not_mem_nil, List.mem_singleton] at hmem
      rw [hmem]
      have hid : (createNetworkUnavailableRisk { score := JsNum.nan, normalized := n }).id =
          "network_signals_unavailable" := rfl
      rw [hid]
      decide

/-- Witness for C10 at a concrete input whose cookie rule fires. -/
theorem detectRisks_nan_score_witness :
    (detectRisks { score := .nan, normalized := cookieHeavyInput }).overallRisk = .high ∧
    (detectRisks { score := .nan, normalized := cookieHeavyInput }).mappingFallbackUsed = false ∧
    cookieVolumeItem.id ≠ "overall_score_high" := by
  have h := detectRisks_nan_score cookieHeavyInput
  refine ⟨h.1, h.2.1, h.2.2 cookieVolumeItem ?_⟩
  with_unfolding_all decide

lemma mappingFallbackUsed_false_of_band {s : JsNum} (n : NormalizedAnalysisInput)
    (h : (0 ≤ clampToScoreRange s ∧ clampToScoreRange s ≤ 3999 / 100) ∨
      (40 ≤ clampToScoreRange s ∧ clampToScoreRange s ≤ 6999 / 100) ∨
      (70 ≤ clampToScoreRange s ∧ clampToScoreRange s ≤ 100)) :
    (detectRisks { score := s, normalized := n }).mappingFallbackUsed = false := by
  rcases h with ⟨h0, h1⟩ | ⟨h0, h1⟩ | ⟨h0, h1⟩
  · rw [detectRisks_mappingFallbackUsed, resolveOverallRisk_high h0 h1]
  · rw [detectRisks_mappingFallbackUsed, resolveOverallRisk_medium h0 h1]
  · rw [detectRisks_mappingFallbackUsed, resolveOverallRisk_low h0 h1]

/-- Counterexample to C8: a raw score of 39.995 — inside the open gap between
the high band's 39.99 and the medium band's 40 — survives clamping unchanged,
matches no band, and takes the fallback branch. -/
theorem mappingFallback_reachable :
    (detectRisks { score := .num (7999 / 200), normalized := zeroInput }).mappingFallbackUsed =
      true ∧
    (detectRisks { score := .num (7999 / 200), normalized := zeroInput }).overallRisk = .medium := by
  constructor <;> with_unfolding_all decide

/-- C8 (amended): for every score that is a whole multiple of 0.01 — in
particular every rounded score `computePrivacyScore` emits — and for every
non-finite score, the clamped score matches one of the three bands and
`detectRisks` reports `mappingFallbackUsed = false`; only raw scores strictly
inside the gaps `(39.99, 40)` or `(69.99, 70)` can take the fallback branch. -/
theorem mappingFallback_unreachable_on_2dp_scores (k : ℤ) (n : NormalizedAnalysisInput) :
    (detectRisks { score := .num ((k : ℚ) / 100), normalized := n }).mappingFallbackUsed = false ∧
    (detectRisks { score := .nan, normalized := n }).mappingFallbackUsed = false ∧
    (detectRisks { score := .posInf, normalized := n }).mappingFallbackUsed = false ∧
    (detectRisks { score := .negInf, normalized := n }).mappingFallbackUsed = false := by
  refine ⟨?_, ?_, ?_, ?_⟩
  case _ =>
    have hc : clampToScoreRange (.num ((k : ℚ) / 100)) =
        if (k : ℚ) / 100 < 0 then 0
        else if (k : ℚ) / 100 > 100 then 100 else (k : ℚ) / 100 := rfl
    by_cases hk0 : k < 0
    · have hq : (k : ℚ) / 100 < 0 := by
        have : (k : ℚ) < 0 := by exact_mod_cast hk0
        linarith
      apply mappingFallbackUsed_false_of_band
      refine Or.inl ?_
      rw [hc, if_pos hq]
      norm_num
    · have hge : (0 : ℚ) ≤ (k : ℚ) := by
        have : (0 : ℤ) ≤ k := not_lt.mp hk0
        exact_mod_cast this
      have hnneg : ¬((k : ℚ) / 100 < 0) := by push_neg; linarith
      by_cases hk1 : 10000 < k
      · have hq : (k : ℚ) / 100 > 100 := by
          have : (10000 : ℚ) < (k : ℚ) := by exact_mod_cast hk1
          linarith
        apply mappingFallbackUsed_false_of_band
        refine Or.inr (Or.inr ?_)
        rw [hc, if_neg hnneg, if_pos hq]
        norm_num
      · have hle : (k : ℚ) ≤ 10000 := by
          have : k ≤ (10000 : ℤ) := not_lt.mp hk1
          exact_mod_cast this
        have hngt : ¬((k : ℚ) / 100 > 100) := by push_neg; linarith
        have hceq : clampToScoreRange (.num ((k : ℚ) / 100)) = (k : ℚ) / 100 := by
          rw [hc, if_neg hnneg, if_neg hngt]
        apply mappingFallbackUsed_false_of_band
        by_cases hk2 : k ≤ 3999
        · have : (k : ℚ) ≤ 3999 := by exact_mod_cast hk2
          refine Or.inl ?_
          rw [hceq]
          constructor <;> linarith
        · have h4000 : (4000 : ℤ) ≤ k := by omega
          have h4000q : (4000 : ℚ) ≤ (k : ℚ) := by exact_mod_cast h4000
          by_cases hk3 : k ≤ 6999
          · have : (k : ℚ) ≤ 6999 := by exact_mod_cast hk3
            refine Or.inr (Or.inl ?_)
            rw [hceq]
            constructor <;> linarith
          · have h7000 : (7000 : ℤ) ≤ k := by omega
            have h7000q : (7000 : ℚ) ≤ (k : ℚ) := by exact_mod_cast h7000
            refine Or.inr (Or.inr ?_)
            rw [hceq]
            constructor <;> linarith
  all_goals
    apply mappingFallbackUsed_false_of_band
    refine Or.inl ?_
    constructor <;> norm_num [clampToScoreRange]

lemma clampPrivacyScore_bounds (v : ℚ) :
    0 ≤ clampPrivacyScore v ∧ clampPrivacyScore v ≤ 100 := by
  unfold clampPrivacyScore PRIVACY_SCORE_MIN PRIVACY_SCORE_MAX
  split_ifs with h1 h2
  · exact ⟨le_refl 0, by norm_num⟩
  · exact ⟨by norm_num, le_refl 100⟩
  · exact ⟨not_lt.mp h1, not_lt.mp h2⟩

lemma roundStableHalfUp2dp_bounds {x : ℚ} (h0 : 0 ≤ x) (h1 : x ≤ 100) :
    0 ≤ roundStableHalfUp2dp x ∧ roundStableHalfUp2dp x ≤ 100 := by
  unfold roundStableHalfUp2dp mathRound jsEpsilon
  have heps : (0 : ℚ) < 1 / 2 ^ 52 := by norm_num
  have hepss : (100 : ℚ) * (1 / 2 ^ 52) < 1 / 2 := by norm_num
  constructor
  · have hfl : (0 : ℤ) ≤ ⌊(x + 1 / 2 ^ 52) * 100 + 1 / 2⌋ := by
      rw [Int.le_floor]
      push_cast
      nlinarith
    have : (0 : ℚ) ≤ (⌊(x + 1 / 2 ^ 52) * 100 + 1 / 2⌋ : ℚ) := by exact_mod_cast hfl
    positivity
  · have hfl : ⌊(x + 1 / 2 ^ 52) * 100 + 1 / 2⌋ < 10001 := by
      rw [Int.floor_lt]
      push_cast
      nlinarith
    have hfl' : ⌊(x + 1 / 2 ^ 52) * 100 + 1 / 2⌋ ≤ 10000 := by omega
    have : ((⌊(x + 1 / 2 ^ 52) * 100 + 1 / 2⌋ : ℚ)) ≤ 10000 := by exact_mod_cast hfl'
    linarith

/-- C1: the privacy score always lies in `[0, 100]`; if every factor's raw
value is `0` the score is exactly `100`; and if every factor's raw value meets
or exceeds its hard cap, the total penalty is exactly `100` and the score is
exactly `0`. -/
theorem computePrivacyScore_bounds (input : NormalizedAnalysisInput) :
    (0 ≤ (computePrivacyScore input).score ∧ (computePrivacyScore input).score ≤ 100) ∧
    ((∀ id, computeRawFactorValue id input = 0) → (computePrivacyScore input).score = 100) ∧
    ((∀ factor ∈ SCORE_FACTOR_DEFINITIONS,
        factor.hardCap ≤ computeRawFactorValue factor.id input) →
      (computePrivacyScore input).totalPenalty = 100 ∧
        (computePrivacyScore input).score = 0) := by
  refine ⟨?_, ?_, ?_⟩
  · have hclamp := clampPrivacyScore_bounds
      (roundStableHalfUp2dp (BASE_PRIVACY_SCORE - (computePrivacyScore input).totalPenalty))
    have hs : (computePrivacyScore input).score =
        roundStableHalfUp2dp (clampPrivacyScore
          (roundStableHalfUp2dp (BASE_PRIVACY_SCORE - (computePrivacyScore input).totalPenalty))) :=
      rfl
    rw [hs]
    exact roundStableHalfUp2dp_bounds hclamp.1 hclamp.2
  · intro hz
    have h1 := hz .third_party_scripts
    have h2 := hz .third_party_cookies
    have h3 := hz .storage_usage
    have h4 := hz .tracking_indicators
    have h5 := hz .network_suspiciousness
    simp only [computePrivacyScore, factorContribution, SCORE_FACTOR_DEFINITIONS, List.map,
      List.foldl, h1, h2, h3, h4, h5]
    with_unfolding_all decide
  · intro hcap
    have h1 := hcap _ (by exact List.mem_cons_self _ _)
    have h2 := hcap _ (List.mem_cons_of_mem _ (List.mem_cons_self _ _))
    have h3 := hcap _ (List.mem_cons_of_mem _ (List.mem_cons_of_mem _ (List.mem_cons_self _ _)))
    have h4 := hcap _ (List.mem_cons_of_mem _ (List.mem_cons_of_mem _
      (List.mem_cons_of_mem _ (List.mem_cons_self _ _))))
    have h5 := hcap _ (List.mem_cons_of_mem _ (List.mem_cons_of_mem _ (List.mem_cons_of_mem _
      (List.mem_cons_of_mem _ (List.mem_cons_self _ _)))))
    simp only [SCORE_FACTOR_DEFINITIONS] at h1 h2 h3 h4 h5
    have hm1 : min (computeRawFactorValue .third_party_scripts input) (20 : ℚ) = 20 :=
      min_eq_right h1
    have hm2 : min (computeRawFactorValue .third_party_cookies input) (40 : ℚ) = 40 :=
      min_eq_right h2
    have hm3 : min (computeRawFactorValue .storage_usage input) (4000000 : ℚ) = 4000000 :=
      min_eq_right h3
    have hm4 : min (computeRawFactorValue .tracking_indicators input) (30 : ℚ) = 30 :=
      min_eq_right h4
    have hm5 : min (computeRawFactorValue .network_suspiciousness input) (80 : ℚ) = 80 :=
      min_eq_right h5
    constructor <;>
      simp only [computePrivacyScore, factorContribution, SCORE_FACTOR_DEFINITIONS, List.map,
        List.foldl, hm1, hm2, hm3, hm4, hm5] <;>
      with_unfolding_all decide

/-- A concrete input saturating every hard cap (the end-to-end fixture:
30 script domains, 80 cookies, 7,500,000 storage bytes, 42 tracking hits,
147 network signals). -/
def maxedInput : NormalizedAnalysisInput :=
  { sourceFlags :=
      { contentReachable := true, contentSignalsAvailable := true,
        cookieSignalsAvailable := true, networkSignalsAvailable := true }
    scriptSignals := { thirdPartyScriptDomainCount := .num 30, externalScriptCount := .num 30 }
    cookieSignals := { thirdPartyCookieEstimateCount := .num 80, totalCookieCount := .num 80 }
    storageSignals :=
      { localStorage := { approxBytes := .num 7000000, keyCount := .num 10 }
        sessionStorage := { approxBytes := .num 500000, keyCount := .num 10 } }
    trackingHeuristics :=
      { trackerDomainHitCount := .num 14, endpointPatternHitCount := .num 14,
        trackingQueryParamCount := .num 14 }
    networkSignals :=
      { available := true, unavailableReason := none,
        thirdPartyRequestCount := .num 50, suspiciousEndpointHitCount := .num 50,
        knownTrackerDomainHitCount := .num 25, shortWindowBurstCount := .num 22 }
    confidence := .high }

/-- Witness for C1 at the all-zero and the all-maxed concrete inputs. -/
theorem computePrivacyScore_bounds_witness :
    (computePrivacyScore zeroInput).score = 100 ∧
    (computePrivacyScore maxedInput).totalPenalty = 100 ∧
    (computePrivacyScore maxedInput).score = 0 :=
  ⟨(computePrivacyScore_bounds zeroInput).2.1
      (fun id => by cases id <;> with_unfolding_all decide),
    ((computePrivacyScore_bounds maxedInput).2.2
      (fun factor hf => by
        simp only [SCORE_FACTOR_DEFINITIONS, List.mem_cons, List.not_mem_nil, or_false] at hf
        rcases hf with rfl | rfl | rfl | rfl | rfl <;> with_unfolding_all decide)).1,
    ((computePrivacyScore_bounds maxedInput).2.2
      (fun factor hf => by
        simp only [SCORE_FACTOR_DEFINITIONS, List.mem_cons, List.not_mem_nil, or_false] at hf
        rcases hf with rfl | rfl | rfl | rfl | rfl <;> with_unfolding_all decide)).2⟩

lemma roundStableHalfUp2dp_image (x : ℚ) :
    ∃ m : ℤ, roundStableHalfUp2dp x = (m : ℚ) / 100 :=
  ⟨mathRound ((x + jsEpsilon) * 100), rfl⟩

lemma roundStableHalfUp2dp_int_div_100 (m : ℤ) :
    roundStableHalfUp2dp ((m : ℚ) / 100) = (m : ℚ) / 100 := by
  unfold roundStableHalfUp2dp mathRound jsEpsilon
  have h : ((m : ℚ) / 100 + 1 / 2 ^ 52) * 100 + 1 / 2 =
      (100 * (1 / 2 ^ 52) + 1 / 2) + (m : ℚ) := by ring
  rw [h]
  rw [show (100 * ((1 : ℚ) / 2 ^ 52) + 1 / 2) + (m : ℚ) = (100 * ((1 : ℚ) / 2 ^ 52) + 1 / 2) + ((m : ℤ) : ℚ) from rfl]
  rw [Int.floor_add_int]
  have h2 : ⌊100 * ((1 : ℚ) / 2 ^ 52) + 1 / 2⌋ = 0 := by
    rw [Int.floor_eq_zero_iff]
    constructor <;> norm_num
  rw [h2]
  push_cast
  ring

lemma foldl_add_penalty (l : List ScoreFactorContribution) (a : ℚ) :
    l.foldl (fun sum contribution => sum + contribution.penalty) a =
      a + (l.map (·.penalty)).sum := by
  induction l generalizing a with
  | nil => simp
  | cons x xs ih => simp [ih]; ring

/-- `zeroInput` with fractional raw values 0.005 (scripts) and 0.01 (cookies),
whose individually rounded penalties (0.01 + 0.01) sum differently from the
single rounding of the raw penalty sum (0.005 + 0.005 → 0.01). -/
def roundingDivergenceInput : NormalizedAnalysisInput :=
  { zeroInput with
    scriptSignals := { thirdPartyScriptDomainCount := .num (1 / 200), externalScriptCount := .num 0 }
    cookieSignals := { thirdPartyCookieEstimateCount := .num (1 / 100), totalCookieCount := .num 0 } }

/-- C9: `computePrivacyScore` rounds at each intermediate step — each factor's
penalty is individually rounded half-up to 2 decimals, `totalPenalty` is that
same rounding applied to the sum of the already-rounded penalties, and the
score is the rounding applied to `clamp(100 − totalPenalty, 0, 100)`; it does
not round only once at the end: on `roundingDivergenceInput` the staged
`totalPenalty` is 0.02 while rounding the raw penalty sum once gives 0.01. -/
theorem computePrivacyScore_rounding_spec (input : NormalizedAnalysisInput) :
    ((computePrivacyScore input).contributions.map (·.penalty) =
      SCORE_FACTOR_DEFINITIONS.map (fun factor =>
        roundStableHalfUp2dp (factor.weight *
          (if factor.hardCap > 0 then
            min (computeRawFactorValue factor.id input) factor.hardCap / factor.hardCap
          else 0)))) ∧
    ((computePrivacyScore input).totalPenalty =
      roundStableHalfUp2dp ((computePrivacyScore input).contributions.map (·.penalty)).sum) ∧
    ((computePrivacyScore input).score =
      roundStableHalfUp2dp
        (clampPrivacyScore (100 - (computePrivacyScore input).totalPenalty))) ∧
    (computePrivacyScore roundingDivergenceInput).totalPenalty = 2 / 100 ∧
    roundStableHalfUp2dp ((SCORE_FACTOR_DEFINITIONS.map (fun factor =>
      factor.weight *
        (if factor.hardCap > 0 then
          min (computeRawFactorValue factor.id roundingDivergenceInput) factor.hardCap /
            factor.hardCap
        else 0))).sum) = 1 / 100 := by
  refine ⟨rfl, ?_, ?_, ?_, ?_⟩
  · have h : (computePrivacyScore input).totalPenalty =
        roundStableHalfUp2dp
          ((SCORE_FACTOR_DEFINITIONS.map (factorContribution input)).foldl
            (fun sum contribution => sum + contribution.penalty) 0) := rfl
    rw [h, foldl_add_penalty, zero_add]
    rfl
  · obtain ⟨m, hm⟩ : ∃ m : ℤ, (computePrivacyScore input).totalPenalty = (m : ℚ) / 100 :=
      roundStableHalfUp2dp_image _
    have hcode : (computePrivacyScore input).score =
        roundStableHalfUp2dp (clampPrivacyScore
          (roundStableHalfUp2dp
            (BASE_PRIVACY_SCORE - (computePrivacyScore input).totalPenalty))) := rfl
    have hexact : roundStableHalfUp2dp
        (BASE_PRIVACY_SCORE - (computePrivacyScore input).totalPenalty) =
          100 - (computePrivacyScore input).totalPenalty := by
      rw [hm, BASE_PRIVACY_SCORE]
      have h1 : (100 : ℚ) - (m : ℚ) / 100 = ((10000 - m : ℤ) : ℚ) / 100 := by
        push_cast
        ring
      rw [h1, roundStableHalfUp2dp_int_div_100]
    rw [hcode, hexact]
  · with_unfolding_all decide
  · with_unfolding_all decide

/-- C6: `strongestNegativeReasons` holds exactly the factors with positive
penalty, sorted descending by penalty with ties broken by canonical factor
order, truncated to at most 3, with the reason text
`"{label} consumed {round(rawValue)} bytes"` for `storage_usage` and
`"{label} triggered {round(rawValue)} signals"` for the other factors. -/
theorem strongestNegativeReasons_spec (input : NormalizedAnalysisInput) :
    ((computePrivacyScore input).strongestNegativeReasons.length =
      min 3 ((computePrivacyScore input).contributions.filter
        (fun contribution => 0 < contribution.penalty)).length) ∧
    List.Pairwise (fun a b : ScoreReason =>
      b.penalty < a.penalty ∨
        (a.penalty = b.penalty ∧ factorIndex a.factorId ≤ factorIndex b.factorId))
      (computePrivacyScore input).strongestNegativeReasons ∧
    (∀ r ∈ (computePrivacyScore input).strongestNegativeReasons,
      ∃ c ∈ (computePrivacyScore input).contributions, 0 < c.penalty ∧
        r.factorId = c.factorId ∧ r.label = c.label ∧ r.penalty = c.penalty ∧
        r.reason =
          (if c.factorId = .storage_usage then
            c.label ++ " consumed " ++ toString (mathRound c.rawValue) ++ " bytes"
          else c.label ++ " triggered " ++ toString (mathRound c.rawValue) ++ " signals")) ∧
    (((computePrivacyScore input).contributions.filter
        (fun contribution => 0 < contribution.penalty)).length ≤ 3 →
      ((computePrivacyScore input).strongestNegativeReasons.map (·.factorId)).Perm
        (((computePrivacyScore input).contributions.filter
          (fun contribution => 0 < contribution.penalty)).map (·.factorId))) ∧
    ((computePrivacyScore input).strongestNegativeReasons.map (·.factorId)).Nodup ∧
    (∀ r ∈ (computePrivacyScore input).strongestNegativeReasons,
      ∀ c ∈ (computePrivacyScore input).contributions, 0 < c.penalty →
        (∀ r' ∈ (computePrivacyScore input).strongestNegativeReasons,
          r'.factorId ≠ c.factorId) →
        (c.penalty < r.penalty ∨
          (r.penalty = c.penalty ∧ factorIndex r.factorId ≤ factorIndex c.factorId))) := by
  have hdef : (computePrivacyScore input).strongestNegativeReasons =
      ((((computePrivacyScore input).contributions.filter
        (fun contribution => 0 < contribution.penalty)).insertionSort
          contribOrder).take MAX_REASON_COUNT).map
        (fun contribution =>
          { factorId := contribution.factorId, label := contribution.label,
            penalty := contribution.penalty,
            reason := buildReasonText contribution }) := rfl
  have hperm := List.perm_insertionSort contribOrder
    ((computePrivacyScore input).contributions.filter
      (fun contribution => 0 < contribution.penalty))
  have hsorted := List.sorted_insertionSort contribOrder
    ((computePrivacyScore input).contributions.filter
      (fun contribution => 0 < contribution.penalty))
  refine ⟨?_, ?_, ?_, ?_, ?_, ?_⟩
  · rw [hdef, List.length_map, List.length_take, hperm.length_eq]
    rfl
  · rw [hdef, List.pairwise_map]
    exact List.Pairwise.sublist (List.take_sublist _ _) hsorted
  · intro r hr
    rw [hdef] at hr
    obtain ⟨c, hc, rfl⟩ := List.mem_map.mp hr
    have hc1 : c ∈ ((computePrivacyScore input).contributions.filter
        (fun contribution => 0 < contribution.penalty)).insertionSort contribOrder :=
      (List.take_sublist _ _).subset hc
    have hc2 := hperm.subset hc1
    obtain ⟨hmem, hpos⟩ := List.mem_filter.mp hc2
    exact ⟨c, hmem, of_decide_eq_true hpos, rfl, rfl, rfl, rfl⟩
  · intro hlen
    rw [hdef, List.take_of_length_le, List.map_map]
    · exact hperm.map _
    · rw [hperm.length_eq]
      exact hlen
  · rw [hdef, List.map_map]
    have hcon : (computePrivacyScore input).contributions.map (·.factorId) =
        [.third_party_scripts, .third_party_cookies, .storage_usage,
          .tracking_indicators, .network_suspiciousness] := rfl
    have hfil : (((computePrivacyScore input).contributions.filter
        (fun contribution => 0 < contribution.penalty)).map (·.factorId)).Nodup := by
      refine List.Nodup.sublist ((List.filter_sublist _).map _) ?_
      rw [hcon]
      decide
    have hsortN : ((((computePrivacyScore input).contributions.filter
        (fun contribution => 0 < contribution.penalty)).insertionSort
          contribOrder).map (·.factorId)).Nodup :=
      ((hperm.map (·.factorId)).nodup_iff).mpr hfil
    exact List.Nodup.sublist ((List.take_sublist _ _).map _) hsortN
  · intro r hr c hc hcpos hnotin
    rw [hdef] at hr
    obtain ⟨a, ha, rfl⟩ := List.mem_map.mp hr
    have hcfil : c ∈ (computePrivacyScore input).contributions.filter
        (fun contribution => 0 < contribution.penalty) :=
      List.mem_filter.mpr ⟨hc, decide_eq_true hcpos⟩
    have hcsort : c ∈ ((computePrivacyScore input).contributions.filter
        (fun contribution => 0 < contribution.penalty)).insertionSort contribOrder :=
      hperm.symm.subset hcfil
    have hcnottake : c ∉ (((computePrivacyScore input).contributions.filter
        (fun contribution => 0 < contribution.penalty)).insertionSort
          contribOrder).take MAX_REASON_COUNT := by
      intro hct
      have hmem := List.mem_map_of_mem
        (fun contribution : ScoreFactorContribution =>
          ({ factorId := contribution.factorId, label := contribution.label,
              penalty := contribution.penalty,
              reason := buildReasonText contribution } : ScoreReason)) hct
      rw [← hdef] at hmem
      exact hnotin _ hmem rfl
    have hcboth : c ∈ (((computePrivacyScore input).contributions.filter
        (fun contribution => 0 < contribution.penalty)).insertionSort
          contribOrder).take MAX_REASON_COUNT ++
        (((computePrivacyScore input).contributions.filter
          (fun contribution => 0 < contribution.penalty)).insertionSort
            contribOrder).drop MAX_REASON_COUNT := by
      rw [List.take_append_drop]
      exact hcsort
    have hcdrop : c ∈ (((computePrivacyScore input).contributions.filter
        (fun contribution => 0 < contribution.penalty)).insertionSort
          contribOrder).drop MAX_REASON_COUNT := by
      rcases List.mem_append.mp hcboth with h | h
      · exact absurd h hcnottake
      · exact h
    have hpw : List.Pairwise contribOrder
        ((((computePrivacyScore input).contributions.filter
          (fun contribution => 0 < contribution.penalty)).insertionSort
            contribOrder).take MAX_REASON_COUNT ++
          (((computePrivacyScore input).contributions.filter
            (fun contribution => 0 < contribution.penalty)).insertionSort
              contribOrder).drop MAX_REASON_COUNT) := by
      rw [List.take_append_drop]
      exact hsorted
    exact (List.pairwise_append.mp hpw).2.2 a ha c hcdrop

/-- The top-ranked reason emitted on `maxedInput` (tracking, penalty 25). -/
def trackingTopReason : ScoreReason :=
  { factorId := .tracking_indicators, label := "Tracking heuristics", penalty := 25,
    reason := "Tracking heuristics triggered 42 signals" }

/-- The network contribution of `maxedInput` (penalty 20, canonical index 4),
dropped by the top-3 truncation in favour of the tied cookie factor. -/
def networkMaxContribution : ScoreFactorContribution :=
  { factorId := .network_suspiciousness, label := "Suspicious network activity",
    rawValue := 147, cappedValue := 80, hardCap := 80, weight := 20, penalty := 20 }

/-- Witness for C6 at a concrete input with exactly one positive factor. -/
theorem strongestNegativeReasons_spec_witness :
    (((computePrivacyScore cookieHeavyInput).strongestNegativeReasons.map (·.factorId)).Perm
      (((computePrivacyScore cookieHeavyInput).contributions.filter
        (fun contribution => 0 < contribution.penalty)).map (·.factorId))) ∧
    (networkMaxContribution.penalty < trackingTopReason.penalty ∨
      (trackingTopReason.penalty = networkMaxContribution.penalty ∧
        factorIndex trackingTopReason.factorId ≤ factorIndex networkMaxContribution.factorId)) :=
  ⟨(strongestNegativeReasons_spec cookieHeavyInput).2.2.2.1 (by with_unfolding_all decide),
    (strongestNegativeReasons_spec maxedInput).2.2.2.2.2 trackingTopReason
      (by with_unfolding_all decide) networkMaxContribution (by with_unfolding_all decide)
      (by with_unfolding_all decide) (by with_unfolding_all decide)⟩

/-- The claim's field-coercion operation: a non-finite or negative number
becomes `0`, any other number is kept. -/
def sanitizeJsNum (v : JsNum) : JsNum :=
  match v with
  | .num q => if q < 0 then .num 0 else .num q
  | _ => .num 0

/-- The claim's input transformation: replace every non-finite or negative
numeric field of a `NormalizedAnalysisInput` with `0`. -/
def zeroMalformedFields (input : NormalizedAnalysisInput) : NormalizedAnalysisInput :=
  { sourceFlags := input.sourceFlags
    scriptSignals :=
      { thirdPartyScriptDomainCount := sanitizeJsNum input.scriptSignals.thirdPartyScriptDomainCount
        externalScriptCount := sanitizeJsNum input.scriptSignals.externalScriptCount }
    cookieSignals :=
      { thirdPartyCookieEstimateCount :=
          sanitizeJsNum input.cookieSignals.thirdPartyCookieEstimateCount
        totalCookieCount := sanitizeJsNum input.cookieSignals.totalCookieCount }
    storageSignals :=
      { localStorage :=
          { approxBytes := sanitizeJsNum input.storageSignals.localStorage.approxBytes
            keyCount := sanitizeJsNum input.storageSignals.localStorage.keyCount }
        sessionStorage :=
          { approxBytes := sanitizeJsNum input.storageSignals.sessionStorage.approxBytes
            keyCount := sanitizeJsNum input.storageSignals.sessionStorage.keyCount } }
    trackingHeuristics :=
      { trackerDomainHitCount := sanitizeJsNum input.trackingHeuristics.trackerDomainHitCount
        endpointPatternHitCount := sanitizeJsNum input.trackingHeuristics.endpointPatternHitCount
        trackingQueryParamCount := sanitizeJsNum input.trackingHeuristics.trackingQueryParamCount }
    networkSignals :=
      { available := input.networkSignals.available
        unavailableReason := input.networkSignals.unavailableReason
        thirdPartyRequestCount := sanitizeJsNum input.networkSignals.thirdPartyRequestCount
        suspiciousEndpointHitCount := sanitizeJsNum input.networkSignals.suspiciousEndpointHitCount
        knownTrackerDomainHitCount := sanitizeJsNum input.networkSignals.knownTrackerDomainHitCount
        shortWindowBurstCount := sanitizeJsNum input.networkSignals.shortWindowBurstCount }
    confidence := input.confidence }

/-- `zeroInput` with storage bytes 5 (local) and −3 (session): the factor
aggregates 5 + (−3) = 2, but per-field zeroing aggregates 5 + 0 = 5. -/
def storageMixInput : NormalizedAnalysisInput :=
  { zeroInput with
    storageSignals :=
      { localStorage := { approxBytes := .num 5, keyCount := .num 0 }
        sessionStorage := { approxBytes := .num (-3), keyCount := .num 0 } } }

/-- `zeroInput` with an infinite third-party cookie estimate: the cookie risk
rule compares the raw value, so `Infinity ≥ 25` fires, while the zeroed field
does not. -/
def infCookieInput : NormalizedAnalysisInput :=
  { zeroInput with
    cookieSignals := { thirdPartyCookieEstimateCount := .posInf, totalCookieCount := .num 0 } }

/-- Counterexample to C7: per-field zeroing of non-finite or negative fields
changes the output of both `computePrivacyScore` (a negative storage field is
absorbed into the aggregate before coercion, so zeroing it raises the
aggregate from 2 to 5) and `detectRisks` (an infinite cookie count fires the
cookie rule, its zeroed replacement does not). -/
theorem zeroMalformedFields_not_invariant :
    computePrivacyScore storageMixInput ≠
      computePrivacyScore (zeroMalformedFields storageMixInput) ∧
    detectRisks { score := .num 100, normalized := infCookieInput } ≠
      detectRisks { score := .num 100, normalized := zeroMalformedFields infCookieInput } := by
  constructor <;> with_unfolding_all decide

/-- The aggregated JS value each scoring factor reads before coercion. -/
def factorAggregate (factorId : ScoreFactorId) (input : NormalizedAnalysisInput) : JsNum :=
  match factorId with
  | .third_party_scripts => input.scriptSignals.thirdPartyScriptDomainCount
  | .third_party_cookies => input.cookieSignals.thirdPartyCookieEstimateCount
  | .storage_usage =>
      input.storageSignals.localStorage.approxBytes +
        input.storageSignals.sessionStorage.approxBytes
  | .tracking_indicators =>
      input.trackingHeuristics.trackerDomainHitCount +
        input.trackingHeuristics.endpointPatternHitCount +
        input.trackingHeuristics.trackingQueryParamCount
  | .network_suspiciousness =>
      if !input.networkSignals.available then .num 0
      else
        input.networkSignals.thirdPartyRequestCount +
          input.networkSignals.suspiciousEndpointHitCount +
          input.networkSignals.knownTrackerDomainHitCount +
          input.networkSignals.shortWindowBurstCount

/-- A JS value that is non-finite or non-positive. -/
def JsNum.malformed : JsNum → Prop
  | .num q => q ≤ 0
  | _ => True

instance (v : JsNum) : Decidable v.malformed :=
  match v with
  | .num q => inferInstanceAs (Decidable (q ≤ 0))
  | .nan => .isTrue trivial
  | .posInf => .isTrue trivial
  | .negInf => .isTrue trivial

lemma toFiniteNonNegative_of_malformed {v : JsNum} (h : v.malformed) :
    toFiniteNonNegative v = 0 := by
  cases v with
  | num q => exact if_pos h
  | nan => rfl
  | posInf => rfl
  | negInf => rfl

lemma computeRawFactorValue_eq_aggregate (factorId : ScoreFactorId)
    (input : NormalizedAnalysisInput) :
    computeRawFactorValue factorId input = toFiniteNonNegative (factorAggregate factorId input) := by
  cases factorId <;>
    first
      | rfl
      | { unfold computeRawFactorValue factorAggregate
          cases h : input.networkSignals.available <;> simp [h, toFiniteNonNegative] }

/-- C7 (amended): the malformed-numeric coercion holds at the level of each
scoring factor's *aggregated* value, not per field: every factor raw value is
`toFiniteNonNegative` of its aggregate, hence non-negative, and a factor whose
aggregate is non-finite or non-positive contributes rawValue, cappedValue and
penalty exactly `0`; per-field zeroing is not an output-preserving operation
for `computePrivacyScore` or `detectRisks` (see the counterexample). -/
theorem malformedNumericHandling_amended (input : NormalizedAnalysisInput) :
    (∀ factorId, 0 ≤ computeRawFactorValue factorId input) ∧
    (∀ factor ∈ SCORE_FACTOR_DEFINITIONS, (factorAggregate factor.id input).malformed →
      (factorContribution input factor).rawValue = 0 ∧
        (factorContribution input factor).cappedValue = 0 ∧
        (factorContribution input factor).penalty = 0) := by
  constructor
  · intro factorId
    rw [computeRawFactorValue_eq_aggregate]
    cases factorAggregate factorId input with
    | num q =>
        simp only [toFiniteNonNegative]
        split_ifs with h
        · exact le_refl 0
        · linarith [not_le.mp h]
    | nan => exact le_refl 0
    | posInf => exact le_refl 0
    | negInf => exact le_refl 0
  · intro factor hf hmal
    have hraw : computeRawFactorValue factor.id input = 0 := by
      rw [computeRawFactorValue_eq_aggregate]
      exact toFiniteNonNegative_of_malformed hmal
    simp only [SCORE_FACTOR_DEFINITIONS, List.mem_cons, List.not_mem_nil, or_false] at hf
    rcases hf with rfl | rfl | rfl | rfl | rfl <;>
      · simp only [factorContribution, hraw]
        refine ⟨?_, ?_, ?_⟩ <;> with_unfolding_all decide

/-- `zeroInput` with both storage byte fields negative, so the storage
aggregate is negative. -/
def storageNegInput : NormalizedAnalysisInput :=
  { zeroInput with
    storageSignals :=
      { localStorage := { approxBytes := .num (-5), keyCount := .num 0 }
        sessionStorage := { approxBytes := .num (-3), keyCount := .num 0 } } }

/-- Witness for C7's amended theorem on a negative storage aggregate. -/
theorem malformedNumericHandling_amended_witness :
    (factorContribution storageNegInput
        { id := .storage_usage, label := "Client storage footprint",
          weight := 15, hardCap := 4000000 }).rawValue = 0 ∧
    (factorContribution storageNegInput
        { id := .storage_usage, label := "Client storage footprint",
          weight := 15, hardCap := 4000000 }).cappedValue = 0 ∧
    (factorContribution storageNegInput
        { id := .storage_usage, label := "Client storage footprint",
          weight := 15, hardCap := 4000000 }).penalty = 0 :=
  (malformedNumericHandling_amended storageNegInput).2 _
    (List.mem_cons_of_mem _ (List.mem_cons_of_mem _ (List.mem_cons_self _ _)))
    (by with_unfolding_all decide)

/-! ### Characterization of the recommendation accumulator (for C5) -/

/-- The risks of a detection output that map to a given action id, in
detection order. -/
def contributors (actionId : RecommendationActionId) (riskItems : List RiskItem) :
    List RiskItem :=
  riskItems.filter (fun risk => actionId ∈ riskToRecommendationMap risk.id)

/-- The severity the accumulator reaches after folding a non-empty
contributor list (first contributor seeds, later ones merge). -/
def accSevOf : List RiskItem → RiskSeverity
  | [] => .low
  | risk :: rest =>
      rest.foldl (fun s r => chooseHigherSeverity s r.severity) risk.severity

/-- The priority the accumulator reaches after folding a non-empty
contributor list. -/
def accPriOf : List RiskItem → MitigationPriority
  | [] => .p3
  | risk :: rest =>
      rest.foldl (fun p r => chooseHigherPriority p r.mitigationPriority) risk.mitigationPriority

/-- Insertion-ordered deduplication, the semantics of filling a JS `Set`. -/
def dedupIds (ids : List String) : List String := ids.foldl addUniqueString []

/-- The accumulator entry determined by a contributor list. -/
def entryOf (cs : List RiskItem) (actionId : RecommendationActionId) :
    RecommendationAccumulator :=
  { actionId := actionId, severity := accSevOf cs, priority := accPriOf cs,
    triggeredByRiskIds := dedupIds (cs.map (·.id)) }

lemma accSevOf_append {cs : List RiskItem} (h : cs ≠ []) (r : RiskItem) :
    accSevOf (cs ++ [r]) = chooseHigherSeverity (accSevOf cs) r.severity := by
  cases cs with
  | nil => exact absurd rfl h
  | cons c rest => simp [accSevOf, List.foldl_append]

lemma accPriOf_append {cs : List RiskItem} (h : cs ≠ []) (r : RiskItem) :
    accPriOf (cs ++ [r]) = chooseHigherPriority (accPriOf cs) r.mitigationPriority := by
  cases cs with
  | nil => exact absurd rfl h
  | cons c rest => simp [accPriOf, List.foldl_append]

lemma dedupIds_append (l : List String) (x : String) :
    dedupIds (l ++ [x]) = addUniqueString (dedupIds l) x := by
  simp [dedupIds, List.foldl_append]

lemma foldl_sev_eq_or_mem (l : List RiskItem) (init : RiskSeverity) :
    l.foldl (fun s r => chooseHigherSeverity s r.severity) init = init ∨
      l.foldl (fun s r => chooseHigherSeverity s r.severity) init ∈ l.map (·.severity) := by
  induction l generalizing init with
  | nil => exact Or.inl rfl
  | cons x xs ih =>
    rw [List.foldl_cons]
    simp only [List.map_cons]
    rcases ih (chooseHigherSeverity init x.severity) with h | h
    · rw [h]
      unfold chooseHigherSeverity
      split_ifs
      · exact Or.inl rfl
      · exact Or.inr (List.mem_cons_self _ _)
    · exact Or.inr (List.mem_cons_of_mem _ h)

lemma foldl_sev_rank_le_init (l : List RiskItem) (init : RiskSeverity) :
    severityRank (l.foldl (fun s r => chooseHigherSeverity s r.severity) init) ≤
      severityRank init := by
  induction l generalizing init with
  | nil => exact le_refl _
  | cons x xs ih =>
    rw [List.foldl_cons]
    refine le_trans (ih _) ?_
    unfold chooseHigherSeverity
    split_ifs with h
    · exact le_refl _
    · exact le_of_not_le h

lemma foldl_sev_rank_le_mem (l : List RiskItem) (init : RiskSeverity) :
    ∀ r ∈ l, severityRank (l.foldl (fun s r => chooseHigherSeverity s r.severity) init) ≤
      severityRank r.severity := by
  induction l generalizing init with
  | nil => intro r hr; cases hr
  | cons x xs ih =>
    intro r hr
    rw [List.foldl_cons]
    rcases List.mem_cons.mp hr with rfl | hr
    · refine le_trans (foldl_sev_rank_le_init _ _) ?_
      unfold chooseHigherSeverity
      split_ifs with h
      · exact h
      · exact le_refl _
    · exact ih _ r hr

lemma foldl_pri_eq_or_mem (l : List RiskItem) (init : MitigationPriority) :
    l.foldl (fun p r => chooseHigherPriority p r.mitigationPriority) init = init ∨
      l.foldl (fun p r => chooseHigherPriority p r.mitigationPriority) init ∈
        l.map (·.mitigationPriority) := by
  induction l generalizing init with
  | nil => exact Or.inl rfl
  | cons x xs ih =>
    rw [List.foldl_cons]
    simp only [List.map_cons]
    rcases ih (chooseHigherPriority init x.mitigationPriority) with h | h
    · rw [h]
      unfold chooseHigherPriority
      split_ifs
      · exact Or.inl rfl
      · exact Or.inr (List.mem_cons_self _ _)
    · exact Or.inr (List.mem_cons_of_mem _ h)

lemma foldl_pri_rank_le_init (l : List RiskItem) (init : MitigationPriority) :
    priorityRank (l.foldl (fun p r => chooseHigherPriority p r.mitigationPriority) init) ≤
      priorityRank init := by
  induction l generalizing init with
  | nil => exact le_refl _
  | cons x xs ih =>
    rw [List.foldl_cons]
    refine le_trans (ih _) ?_
    unfold chooseHigherPriority
    split_ifs with h
    · exact le_refl _
    · exact le_of_not_le h

lemma foldl_pri_rank_le_mem (l : List RiskItem) (init : MitigationPriority) :
    ∀ r ∈ l, priorityRank (l.foldl (fun p r => chooseHigherPriority p r.mitigationPriority) init) ≤
      priorityRank r.mitigationPriority := by
  induction l generalizing init with
  | nil => intro r hr; cases hr
  | cons x xs ih =>
    intro r hr
    rw [List.foldl_cons]
    rcases List.mem_cons.mp hr with rfl | hr
    · refine le_trans (foldl_pri_rank_le_init _ _) ?_
      unfold chooseHigherPriority
      split_ifs with h
      · exact h
      · exact le_refl _
    · exact ih _ r hr

lemma accSevOf_mem {cs : List RiskItem} (h : cs ≠ []) :
    accSevOf cs ∈ cs.map (·.severity) := by
  cases cs with
  | nil => exact absurd rfl h
  | cons c rest =>
    simp only [accSevOf, List.map_cons]
    rcases foldl_sev_eq_or_mem rest c.severity with h' | h'
    · rw [h']
      exact List.mem_cons_self _ _
    · exact List.mem_cons_of_mem _ h'

lemma accSevOf_le {cs : List RiskItem} :
    ∀ r ∈ cs, severityRank (accSevOf cs) ≤ severityRank r.severity := by
  cases cs with
  | nil => intro r hr; cases hr
  | cons c rest =>
    intro r hr
    simp only [accSevOf]
    rcases List.mem_cons.mp hr with rfl | hr
    · exact foldl_sev_rank_le_init _ _
    · exact foldl_sev_rank_le_mem _ _ r hr

lemma accPriOf_mem {cs : List RiskItem} (h : cs ≠ []) :
    accPriOf cs ∈ cs.map (·.mitigationPriority) := by
  cases cs with
  | nil => exact absurd rfl h
  | cons c rest =>
    simp only [accPriOf, List.map_cons]
    rcases foldl_pri_eq_or_mem rest c.mitigationPriority with h' | h'
    · rw [h']
      exact List.mem_cons_self _ _
    · exact List.mem_cons_of_mem _ h'

lemma accPriOf_le {cs : List RiskItem} :
    ∀ r ∈ cs, priorityRank (accPriOf cs) ≤ priorityRank r.mitigationPriority := by
  cases cs with
  | nil => intro r hr; cases hr
  | cons c rest =>
    intro r hr
    simp only [accPriOf]
    rcases List.mem_cons.mp hr with rfl | hr
    · exact foldl_pri_rank_le_init _ _
    · exact foldl_pri_rank_le_mem _ _ r hr

lemma mem_addUniqueString {l : List String} {x y : String} :
    y ∈ addUniqueString l x ↔ y ∈ l ∨ y = x := by
  unfold addUniqueString
  split_ifs with h
  · constructor
    · exact Or.inl
    · rintro (hy | rfl)
      · exact hy
      · exact h
  · simp

lemma nodup_addUniqueString {l : List String} (h : l.Nodup) (x : String) :
    (addUniqueString l x).Nodup := by
  unfold addUniqueString
  split_ifs with hx
  · exact h
  · simp [List.nodup_append, h, hx]

lemma mem_foldl_addUnique (l : List String) (acc : List String) (y : String) :
    y ∈ l.foldl addUniqueString acc ↔ y ∈ acc ∨ y ∈ l := by
  induction l generalizing acc with
  | nil => simp
  | cons x xs ih =>
    rw [List.foldl_cons, ih, mem_addUniqueString]
    simp only [List.mem_cons]
    tauto

lemma nodup_foldl_addUnique (l : List String) (acc : List String) (h : acc.Nodup) :
    (l.foldl addUniqueString acc).Nodup := by
  induction l generalizing acc with
  | nil => exact h
  | cons x xs ih => exact ih _ (nodup_addUniqueString h x)

lemma dedupIds_mem (l : List String) (y : String) : y ∈ dedupIds l ↔ y ∈ l := by
  unfold dedupIds
  rw [mem_foldl_addUnique]
  simp

lemma dedupIds_nodup (l : List String) : (dedupIds l).Nodup :=
  nodup_foldl_addUnique l [] List.nodup_nil

lemma dedupIds_ne_nil {l : List String} (h : l ≠ []) : dedupIds l ≠ [] := by
  cases l with
  | nil => exact absurd rfl h
  | cons x xs =>
    have : x ∈ dedupIds (x :: xs) := (dedupIds_mem _ _).mpr (List.mem_cons_self _ _)
    exact List.ne_nil_of_mem this

lemma mergeAcc_actionId (acc : RecommendationAccumulator) (risk : RiskItem) :
    (mergeAcc acc risk).actionId = acc.actionId := rfl

lemma applyRiskAction_find? (risk : RiskItem) (accs : List RecommendationAccumulator)
    (i b : RecommendationActionId) :
    (applyRiskAction risk accs i).find? (fun acc => acc.actionId = b) =
      if b = i then
        match accs.find? (fun acc => acc.actionId = b) with
        | none => some (freshAcc risk i)
        | some acc => some (mergeAcc acc risk)
      else accs.find? (fun acc => acc.actionId = b) := by
  unfold applyRiskAction
  by_cases hany : accs.any (fun acc => decide (acc.actionId = i)) = true
  · rw [if_pos hany, List.find?_map]
    have hp : ((fun acc : RecommendationAccumulator => decide (acc.actionId = b)) ∘
        (fun acc => if acc.actionId = i then mergeAcc acc risk else acc)) =
        (fun acc : RecommendationAccumulator => decide (acc.actionId = b)) := by
      funext acc
      by_cases hc : acc.actionId = i <;> simp [hc, mergeAcc_actionId]
    rw [hp]
    by_cases hb : b = i
    · subst hb
      obtain ⟨acc0, hacc0, hpa⟩ := List.any_eq_true.mp hany
      have hsome : (accs.find? (fun acc => acc.actionId = b)).isSome := by
        rw [List.find?_isSome]
        exact ⟨acc0, hacc0, hpa⟩
      obtain ⟨acc1, hfind⟩ := Option.isSome_iff_exists.mp hsome
      rw [hfind, if_pos rfl]
      have hid : acc1.actionId = b := by
        have hq := List.find?_some hfind
        exact of_decide_eq_true hq
      rw [show Option.map (fun acc => if acc.actionId = b then mergeAcc acc risk else acc)
          (some acc1) = some (if acc1.actionId = b then mergeAcc acc1 risk else acc1) from rfl]
      rw [if_pos hid]
    · rw [if_neg hb]
      cases hfind : accs.find? (fun acc => acc.actionId = b) with
      | none => rfl
      | some acc1 =>
        have hid : acc1.actionId = b := by
          have hq := List.find?_some hfind
          exact of_decide_eq_true hq
        rw [show Option.map (fun acc => if acc.actionId = i then mergeAcc acc risk else acc)
            (some acc1) = some (if acc1.actionId = i then mergeAcc acc1 risk else acc1) from rfl]
        rw [if_neg (by rw [hid]; exact hb)]
  · rw [if_neg hany, List.find?_append]
    have hnone : ∀ x ∈ accs, ¬(x.actionId = i) := by
      intro x hx he
      exact hany (List.any_eq_true.mpr ⟨x, hx, decide_eq_true he⟩)
    by_cases hb : b = i
    · subst hb
      have h1 : accs.find? (fun acc => acc.actionId = b) = none :=
        List.find?_eq_none.mpr (fun x hx => by simpa using hnone x hx)
      rw [h1]
      simp [List.find?, freshAcc]
    · rw [if_neg hb]
      have hib : ¬(i = b) := fun h => hb h.symm
      have h2 : ([freshAcc risk i].find? (fun acc => acc.actionId = b)) = none := by
        simp [List.find?, freshAcc, hib]
      rw [h2, Option.or_none]

lemma foldl_applyRiskAction_find? (risk : RiskItem) (ids : List RecommendationActionId)
    (hnd : ids.Nodup) (accs : List RecommendationAccumulator) (b : RecommendationActionId) :
    (ids.foldl (applyRiskAction risk) accs).find? (fun acc => acc.actionId = b) =
      if b ∈ ids then
        match accs.find? (fun acc => acc.actionId = b) with
        | none => some (freshAcc risk b)
        | some acc => some (mergeAcc acc risk)
      else accs.find? (fun acc => acc.actionId = b) := by
  induction ids generalizing accs with
  | nil => simp
  | cons i rest ih =>
    obtain ⟨hi, hrest⟩ := List.nodup_cons.mp hnd
    rw [List.foldl_cons, ih hrest]
    by_cases hbr : b ∈ rest
    · have hbi : ¬(b = i) := fun h => hi (h ▸ hbr)
      rw [if_pos hbr, if_pos (List.mem_cons_of_mem _ hbr),
        applyRiskAction_find? risk accs i b, if_neg hbi]
    · rw [if_neg hbr, applyRiskAction_find? risk accs i b]
      by_cases hbi : b = i
      · subst hbi
        rw [if_pos rfl, if_pos (List.mem_cons_self _ _)]
      · rw [if_neg hbi, if_neg (by simp [hbi, hbr])]

lemma applyRiskAction_keys (risk : RiskItem) (accs : List RecommendationAccumulator)
    (i : RecommendationActionId) :
    (applyRiskAction risk accs i).map (·.actionId) =
      if i ∈ accs.map (·.actionId) then accs.map (·.actionId)
      else accs.map (·.actionId) ++ [i] := by
  unfold applyRiskAction
  by_cases hmem : i ∈ accs.map (·.actionId)
  · obtain ⟨acc0, hacc0, hid⟩ := List.mem_map.mp hmem
    have hany : accs.any (fun acc => decide (acc.actionId = i)) = true :=
      List.any_eq_true.mpr ⟨acc0, hacc0, decide_eq_true hid⟩
    rw [if_pos hany, if_pos hmem, List.map_map]
    apply List.map_congr_left
    intro acc _
    by_cases hc : acc.actionId = i <;> simp [hc, mergeAcc_actionId]
  · have hany : ¬(accs.any (fun acc => decide (acc.actionId = i)) = true) := by
      intro h
      obtain ⟨acc0, hacc0, hid⟩ := List.any_eq_true.mp h
      exact hmem (List.mem_map.mpr ⟨acc0, hacc0, of_decide_eq_true hid⟩)
    rw [if_neg hany, if_neg hmem, List.map_append]
    rfl

lemma foldl_applyRiskAction_keysNodup (risk : RiskItem) (ids : List RecommendationActionId)
    (accs : List RecommendationAccumulator) (h : (accs.map (·.actionId)).Nodup) :
    ((ids.foldl (applyRiskAction risk) accs).map (·.actionId)).Nodup := by
  induction ids generalizing accs with
  | nil => exact h
  | cons i rest ih =>
    rw [List.foldl_cons]
    apply ih
    rw [applyRiskAction_keys]
    split_ifs with hmem
    · exact h
    · simp [List.nodup_append, h, hmem]

/-- The accumulator state after folding a list of risk items. -/
def riskState (riskItems : List RiskItem) : List RecommendationAccumulator :=
  riskItems.foldl applyRiskToAccumulator []

lemma nodup_riskToRecommendationMap (id : String) : (riskToRecommendationMap id).Nodup := by
  unfold riskToRecommendationMap
  split_ifs <;> decide

lemma riskState_keysNodup (riskItems : List RiskItem) :
    ((riskState riskItems).map (·.actionId)).Nodup := by
  induction riskItems using List.reverseRecOn with
  | nil => simp [riskState]
  | append_singleton l r ih =>
    have h : riskState (l ++ [r]) = applyRiskToAccumulator (riskState l) r := by
      unfold riskState
      rw [List.foldl_append]
      rfl
    rw [h]
    exact foldl_applyRiskAction_keysNodup r _ _ ih

lemma contributors_append (a : RecommendationActionId) (l : List RiskItem) (r : RiskItem) :
    contributors a (l ++ [r]) =
      contributors a l ++ (if a ∈ riskToRecommendationMap r.id then [r] else []) := by
  unfold contributors
  rw [List.filter_append]
  congr 1
  by_cases h : a ∈ riskToRecommendationMap r.id <;> simp [List.filter, h]

lemma riskState_find? (riskItems : List RiskItem) (b : RecommendationActionId) :
    (riskState riskItems).find? (fun acc => acc.actionId = b) =
      if contributors b riskItems = [] then none
      else some (entryOf (contributors b riskItems) b) := by
  induction riskItems using List.reverseRecOn with
  | nil => simp [riskState, contributors]
  | append_singleton l r ih =>
    have hstate : riskState (l ++ [r]) = applyRiskToAccumulator (riskState l) r := by
      unfold riskState
      rw [List.foldl_append]
      rfl
    rw [hstate]
    unfold applyRiskToAccumulator
    rw [foldl_applyRiskAction_find? r _ (nodup_riskToRecommendationMap r.id) _ b, ih,
      contributors_append]
    by_cases hb : b ∈ riskToRecommendationMap r.id
    · rw [if_pos hb, if_pos hb]
      by_cases hc : contributors b l = []
      · rw [if_pos hc, hc, List.nil_append]
        rw [if_neg (by simp)]
        congr 1
      · rw [if_neg hc, if_neg (by simp [hc])]
        unfold entryOf mergeAcc
        rw [accSevOf_append hc, accPriOf_append hc, List.map_append, List.map_cons,
          List.map_nil, dedupIds_append]
    · rw [if_neg hb, if_neg hb, List.append_nil]

lemma mem_find?_of_keysNodup {accs : List RecommendationAccumulator}
    (hnd : (accs.map (·.actionId)).Nodup) {acc : RecommendationAccumulator} (h : acc ∈ accs) :
    accs.find? (fun x => x.actionId = acc.actionId) = some acc := by
  induction accs with
  | nil => cases h
  | cons y ys ih =>
    rw [List.map_cons, List.nodup_cons] at hnd
    rcases List.mem_cons.mp h with rfl | h
    · rw [List.find?_cons_of_pos]
      simp
    · rw [List.find?_cons_of_neg, ih hnd.2 h]
      have hy : y.actionId ≠ acc.actionId := by
        intro he
        exact hnd.1 (he ▸ List.mem_map_of_mem (·.actionId) h)
      simpa using hy

lemma riskState_mem {riskItems : List RiskItem} {acc : RecommendationAccumulator}
    (h : acc ∈ riskState riskItems) :
    contributors acc.actionId riskItems ≠ [] ∧
      acc = entryOf (contributors acc.actionId riskItems) acc.actionId := by
  have hf := mem_find?_of_keysNodup (riskState_keysNodup riskItems) h
  rw [riskState_find?] at hf
  by_cases hc : contributors acc.actionId riskItems = []
  · rw [if_pos hc] at hf
    cases hf
  · rw [if_neg hc] at hf
    exact ⟨hc, (Option.some.inj hf).symm⟩

lemma riskState_complete {riskItems : List RiskItem} {a : RecommendationActionId}
    (h : contributors a riskItems ≠ []) :
    ∃ acc ∈ riskState riskItems, acc.actionId = a := by
  have hfind := riskState_find? riskItems a
  rw [if_neg h] at hfind
  exact ⟨_, List.mem_of_find?_eq_some hfind, rfl⟩

lemma chooseHigherPriority_rank_le_left (a b : MitigationPriority) :
    priorityRank (chooseHigherPriority a b) ≤ priorityRank a := by
  unfold chooseHigherPriority
  split_ifs with h
  · exact le_refl _
  · exact le_of_not_le h

lemma chooseHigherPriority_rank_le_right (a b : MitigationPriority) :
    priorityRank (chooseHigherPriority a b) ≤ priorityRank b := by
  unfold chooseHigherPriority
  split_ifs with h
  · exact h
  · exact le_refl _

lemma chooseHigherPriority_eq_or (a b : MitigationPriority) :
    chooseHigherPriority a b = a ∨ chooseHigherPriority a b = b := by
  unfold chooseHigherPriority
  split_ifs
  · exact Or.inl rfl
  · exact Or.inr rfl

lemma sortRiskIdsStable_perm (l : List String) : List.Perm (sortRiskIdsStable l) l :=
  List.perm_insertionSort _ l

lemma sortRiskIdsStable_sorted (l : List String) :
    (sortRiskIdsStable l).Sorted (· ≤ ·) :=
  List.sorted_insertionSort _ l

/-- C5: `generateRecommendations` emits at most one recommendation per action
id; each recommendation's severity is the most severe among its contributing
risks, its priority the most urgent among the catalog default and its
contributing risks' mitigation priorities, its `triggeredByRiskIds` the
non-empty, lexicographically sorted, duplicate-free set of contributing risk
ids; every action some risk maps to is emitted; and the final list is sorted
by severity, then priority, then action id. -/
theorem generateRecommendations_spec (input : RiskDetectionOutput) :
    ((generateRecommendations input).recommendations.map (·.actionId)).Nodup ∧
    (∀ rec ∈ (generateRecommendations input).recommendations,
      contributors rec.actionId input.riskItems ≠ [] ∧
      (rec.severity ∈ (contributors rec.actionId input.riskItems).map (·.severity) ∧
        ∀ r ∈ contributors rec.actionId input.riskItems,
          severityRank rec.severity ≤ severityRank r.severity) ∧
      (priorityRank rec.priority ≤
          priorityRank (RECOMMENDATION_CATALOG rec.actionId).defaultPriority ∧
        (∀ r ∈ contributors rec.actionId input.riskItems,
          priorityRank rec.priority ≤ priorityRank r.mitigationPriority) ∧
        (rec.priority = (RECOMMENDATION_CATALOG rec.actionId).defaultPriority ∨
          rec.priority ∈
            (contributors rec.actionId input.riskItems).map (·.mitigationPriority))) ∧
      (rec.triggeredByRiskIds ≠ [] ∧
        rec.triggeredByRiskIds.Pairwise (· < ·) ∧
        ∀ id, id ∈ rec.triggeredByRiskIds ↔
          ∃ r ∈ input.riskItems, r.id = id ∧ rec.actionId ∈ riskToRecommendationMap r.id)) ∧
    (∀ a, contributors a input.riskItems ≠ [] →
      ∃ rec ∈ (generateRecommendations input).recommendations, rec.actionId = a) ∧
    (generateRecommendations input).recommendations.Pairwise recOrder := by
  have hrecs : (generateRecommendations input).recommendations =
      ((riskState input.riskItems).map finalizeAccumulator).insertionSort recOrder := rfl
  have hperm : List.Perm (generateRecommendations input).recommendations
      ((riskState input.riskItems).map finalizeAccumulator) := by
    rw [hrecs]
    exact List.perm_insertionSort _ _
  refine ⟨?_, ?_, ?_, ?_⟩
  · have hkeys : List.Perm ((generateRecommendations input).recommendations.map (·.actionId))
        ((riskState input.riskItems).map (·.actionId)) := by
      have h1 := hperm.map (·.actionId)
      rw [List.map_map] at h1
      exact h1
    exact hkeys.nodup_iff.mpr (riskState_keysNodup input.riskItems)
  · intro rec hrec
    have hrec' : rec ∈ (riskState input.riskItems).map finalizeAccumulator :=
      hperm.subset hrec
    obtain ⟨acc, hacc, rfl⟩ := List.mem_map.mp hrec'
    obtain ⟨hne, haccEq⟩ := riskState_mem hacc
    have hsev : (finalizeAccumulator acc).severity =
        accSevOf (contributors acc.actionId input.riskItems) := by
      rw [haccEq]
      rfl
    have hpri : (finalizeAccumulator acc).priority =
        chooseHigherPriority (RECOMMENDATION_CATALOG acc.actionId).defaultPriority
          (accPriOf (contributors acc.actionId input.riskItems)) := by
      conv_lhs => rw [haccEq]
      rfl
    have hids : (finalizeAccumulator acc).triggeredByRiskIds =
        sortRiskIdsStable
          (dedupIds ((contributors acc.actionId input.riskItems).map (·.id))) := by
      conv_lhs => rw [haccEq]
      rfl
    have hact : (finalizeAccumulator acc).actionId = acc.actionId := rfl
    rw [hact, hsev, hpri, hids]
    have hidsPerm := sortRiskIdsStable_perm
      (dedupIds ((contributors acc.actionId input.riskItems).map (·.id)))
    refine ⟨hne, ⟨accSevOf_mem hne, accSevOf_le⟩, ⟨?_, ?_, ?_⟩, ?_, ?_, ?_⟩
    · exact chooseHigherPriority_rank_le_left _ _
    · intro r hr
      exact le_trans (chooseHigherPriority_rank_le_right _ _) (accPriOf_le r hr)
    · rcases chooseHigherPriority_eq_or
        (RECOMMENDATION_CATALOG acc.actionId).defaultPriority
        (accPriOf (contributors acc.actionId input.riskItems)) with h | h
      · exact Or.inl h
      · exact Or.inr (by rw [h]; exact accPriOf_mem hne)
    · intro hnil
      have hd : dedupIds ((contributors acc.actionId input.riskItems).map (·.id)) = [] := by
        have hp := hidsPerm
        rw [hnil] at hp
        exact (hp.symm).eq_nil
      refine dedupIds_ne_nil ?_ hd
      intro hmapnil
      exact hne (List.map_eq_nil_iff.mp hmapnil)
    · have hsortedLe := sortRiskIdsStable_sorted
        (dedupIds ((contributors acc.actionId input.riskItems).map (·.id)))
      have hnodup : (sortRiskIdsStable
          (dedupIds ((contributors acc.actionId input.riskItems).map (·.id)))).Nodup :=
        hidsPerm.nodup_iff.mpr (dedupIds_nodup _)
      exact List.Sorted.lt_of_le hsortedLe hnodup
    · intro id
      rw [hidsPerm.mem_iff, dedupIds_mem]
      constructor
      · intro hid
        obtain ⟨r, hr, hrid⟩ := List.mem_map.mp hid
        obtain ⟨hrmem, hrmap⟩ := List.mem_filter.mp hr
        exact ⟨r, hrmem, hrid, of_decide_eq_true hrmap⟩
      · rintro ⟨r, hrmem, rfl, hrmap⟩
        exact List.mem_map_of_mem _
          (List.mem_filter.mpr ⟨hrmem, decide_eq_true hrmap⟩)
  · intro a ha
    obtain ⟨acc, hacc, haid⟩ := riskState_complete ha
    refine ⟨finalizeAccumulator acc, ?_, haid⟩
    exact hperm.symm.subset (List.mem_map_of_mem _ hacc)
  · rw [hrecs]
    exact List.sorted_insertionSort _ _

/-- A concrete detection output with two high risks that share mapped
actions, used by the C5 witness. -/
def exRiskOutput : RiskDetectionOutput :=
  { overallRisk := .high
    overallExplanation := "High privacy risk due to strong tracking and third-party activity signals."
    mappingFallbackUsed := false
    networkFallbackUsed := false
    networkUnavailableReason := none
    riskItems :=
      [ { id := "overall_score_high", title := "Overall privacy score is low",
          explanation := "The total score indicates multiple significant privacy risk factors.",
          severity := .high, mitigationPriority := .p1, source := .overall_score,
          metric := "score", operator := .lt, threshold := 40, actualValue := .num 10 },
        { id := "tracking_indicator_density", title := "Dense tracking indicators",
          explanation := "Multiple tracker and endpoint patterns suggest active telemetry collection.",
          severity := .high, mitigationPriority := .p1, source := .tracking,
          metric := "trackingHeuristics.totalIndicators", operator := .ge, threshold := 12,
          actualValue := .num 20 } ] }

/-- Witness for C5: on `exRiskOutput` the emitted action ids are
duplicate-free and the shared `block_known_trackers` action is emitted. -/
theorem generateRecommendations_spec_witness :
    ((generateRecommendations exRiskOutput).recommendations.map (·.actionId)).Nodup ∧
    (∃ rec ∈ (generateRecommendations exRiskOutput).recommendations,
      rec.actionId = .block_known_trackers) :=
  ⟨(generateRecommendations_spec exRiskOutput).1,
    (generateRecommendations_spec exRiskOutput).2.2.1 .block_known_trackers
      (by with_unfolding_all decide)⟩

end PrivacyAssistant
